import Mathlib

/-!
# A shallow embedding of NonBlockingThingSpeak.h

This file models the non-blocking ThingSpeak client
(`src/NonBlockingThingSpeak.h`) in Lean 4 and verifies properties of its
response decoder, pending-operation stack, request encoder and result state.

Modelling conventions:

* Bytes are `Char`, byte strings are `List Char` (the library works on
  Arduino `String`, which is a byte string).
* The transport (`Client`) is a record holding the unconsumed response
  bytes (`input`), a count `avail` of bytes already delivered by the
  transport but not yet consumed (`available()`), the flattened request
  bytes written so far (`writes`), and counters for `connect()` and
  `stop()` calls.  `Stream::find` and `Stream::parseInt` block internally
  (with their own character timeout) and consume bytes as they arrive, so
  they are modelled as consuming from the full `input` list, with `avail`
  decreasing (saturating at zero) by the number of consumed bytes.
* The closures pushed on `stackofreturns` are represented as a tagged
  `Step` type; `run` (the source's `run()`) invokes the closure on top of
  the stack without popping it — each step pops itself, exactly as the
  corresponding lambda in the source does (or fails to do).
* The monotonic millisecond clock (`millis()`) is the `now` field of the
  machine state; unsigned `millis() - timestamp1` is `Nat` subtraction.
* Callbacks (`onWriteFieldCallback` etc. are empty virtual hooks in the
  source) are recorded as an event trace so that we can reason about when
  and how often they fire.
-/

namespace ThingSpeakNB

/-- Does `p` occur as a prefix of `s` (bytewise)?  Helper for `Stream::find`. -/
def leadsWith : List Char → List Char → Bool
  | [], _ => true
  | _ :: _, [] => false
  | a :: as, b :: bs => a = b && leadsWith as bs

/-- `Stream::find(target)`: consume bytes up to and including the first
occurrence of `pat`; `none` when the stream is exhausted first.  Returns the
suffix after the match. -/
def dropThrough (pat : List Char) : List Char → Option (List Char)
  | [] => if pat.isEmpty then some [] else none
  | c :: rest =>
    if leadsWith pat (c :: rest) then some ((c :: rest).drop pat.length)
    else dropThrough pat rest

def isDigitChar (c : Char) : Bool := '0' ≤ c && c ≤ '9'

/-- The digit-consuming loop of `Stream::parseInt`: consume digits,
accumulating the value; the terminating non-digit is peeked, not consumed. -/
def parseDigits (acc : Int) : List Char → Int × List Char
  | [] => (acc, [])
  | c :: rest =>
    if isDigitChar c then parseDigits (acc * 10 + (c.toNat - '0'.toNat : Nat)) rest
    else (acc, c :: rest)

/-- `Stream::peekNextDigit` with `SKIP_ALL`: consume characters until a digit
or a minus sign is next. -/
def skipToDigit : List Char → List Char
  | [] => []
  | c :: rest => if isDigitChar c || c = '-' then c :: rest else skipToDigit rest

/-- `Stream::parseInt()` (default `SKIP_ALL` lookahead): skip to the first
digit or minus sign, consume an optional sign and then digits; `0` when the
stream ends with no digits. -/
def parseIntL (s : List Char) : Int × List Char :=
  match skipToDigit s with
  | [] => (0, [])
  | c :: rest =>
    if c = '-' then
      match parseDigits 0 rest with
      | (v, r) => (-v, r)
    else parseDigits 0 (c :: rest)

def isSpaceChar (c : Char) : Bool :=
  c = ' ' || c = '\t' || c = '\n' || c = '\x0b' || c = '\x0c' || c = '\r'

/-- Arduino `String::toInt`, i.e. C `atol`: skip leading whitespace, optional
sign, then digits; `0` when no digits follow. -/
def atolL (s : List Char) : Int :=
  match s.dropWhile isSpaceChar with
  | '-' :: rest => -(parseDigits 0 rest).1
  | '+' :: rest => (parseDigits 0 rest).1
  | other => (parseDigits 0 other).1

/-- The transport (`Client`) together with delivery bookkeeping.
`connectOk` / `writeOk` fix how the external collaborator responds to
`connect()` and `print()`. -/
structure ClientState where
  input : List Char := []
  avail : Nat := 0
  connectOk : Bool := true
  writeOk : Bool := true
  connected : Bool := false
  connects : Nat := 0
  stops : Nat := 0
  writes : List Char := []
deriving DecidableEq

/-- Record that the unconsumed stream is now `s`; `avail` drops by the number
of consumed bytes (saturating: bytes consumed while a `find`/`parseInt`
blocked had not yet been counted available). -/
def ClientState.consumeTo (c : ClientState) (s : List Char) : ClientState :=
  { c with input := s, avail := c.avail - (c.input.length - s.length) }

/-- `client->find(pat)`. -/
def clientFind (pat : List Char) (c : ClientState) : Bool × ClientState :=
  match dropThrough pat c.input with
  | some r => (true, c.consumeTo r)
  | none => (false, { c with input := [], avail := 0 })

/-- `client->parseInt()`. -/
def clientParseInt (c : ClientState) : Int × ClientState :=
  ((parseIntL c.input).1, c.consumeTo (parseIntL c.input).2)

/-- `connectThingSpeak()`: one `client->connect(...)` attempt. -/
def connectThingSpeak (c : ClientState) : ClientState × Bool :=
  ({ c with connects := c.connects + 1, connected := c.connectOk }, c.connectOk)

/-- `emptyStream()` / the drain loop of the abort helpers: read and discard
every currently-available byte. -/
def drainAvail (c : ClientState) : ClientState :=
  { c with input := c.input.drop c.avail, avail := 0 }

/-- `client->stop()`. -/
def clientStop (c : ClientState) : ClientState :=
  { c with connected := false, stops := c.stops + 1 }

/-- A successful sequence of `client->print(...)` calls, flattened. -/
def printAll (c : ClientState) (s : List Char) : ClientState :=
  { c with writes := c.writes ++ s }

/-- The closures pushed onto `stackofreturns`, as a tagged type.  Each tag
names the member function (or lambda body) the closure invokes. -/
inductive Step where
  | getHTTPResponse
  | getHTTPResponse1
  | readRaw1
  | finishWrite1
  | writeFieldRet
  | writeFieldsRet
  | writeRawRet
  | readStringRet
deriving DecidableEq

/-- Observable callback invocations (the `on...Callback` hooks). -/
inductive Ev where
  | writeFieldCb (code : Int)
  | writeFieldsCb (code : Int)
  | writeRawCb (code : Int)
  | readStringCb (text : List Char)
deriving DecidableEq

/-- The staged multi-field update (`nextWriteField[8]`, `nextWriteLatitude`,
...).  The three float members are modelled by their rendered decimal text
(`String(float)` and `print(float)` both render two decimal places); `none`
stands for `NAN` (the `isnan` guard). -/
structure NextWrite where
  f1 : List Char := []
  f2 : List Char := []
  f3 : List Char := []
  f4 : List Char := []
  f5 : List Char := []
  f6 : List Char := []
  f7 : List Char := []
  f8 : List Char := []
  lat : Option (List Char) := none
  lon : Option (List Char) := none
  elev : Option (List Char) := none
  stat : List Char := []
  twitter : List Char := []
  tweet : List Char := []
  createdAt : List Char := []
deriving DecidableEq

/-- The `feed` struct holding the values decoded by `readMultipleFields`. -/
structure Feed where
  nextReadField : List (List Char) := List.replicate 8 []
  nextReadStatus : List Char := []
  nextReadLatitude : List Char := []
  nextReadLongitude : List Char := []
  nextReadElevation : List Char := []
  nextReadCreatedAt : List Char := []
deriving DecidableEq

/-- The whole `NonBlockingThingSpeakClass` object state, plus the clock and
the callback trace. -/
structure TS where
  client : ClientState := {}
  httpresponsetext : List Char := []
  stack : List Step := []
  timestamp1 : Nat := 0
  contentLength : Int := 0
  lastReadStatus : Int := 200
  wf : NextWrite := {}
  lastFeed : Feed := {}
  now : Nat := 0
  events : List Ev := []
deriving DecidableEq

def httpMark : List Char := "HTTP/1.1".data
def clMark : List Char := "Content-Length:".data
def hdrEnd : List Char := "\r\n\r\n".data

/-- `getHTTPResponse_1()`: the body-await step.  Waits (or times out) until
`contentLength` bytes are available, then drains exactly that many into
`httpresponsetext` and pops itself. -/
def getHTTPResponse_1 (st : TS) : TS :=
  if (st.client.avail : Int) < st.contentLength then
    if 5000 < st.now - st.timestamp1 then
      { st with lastReadStatus := -304, stack := st.stack.tail }
    else st
  else
    { st with
      client := { st.client with
        input := st.client.input.drop st.contentLength.toNat
        avail := st.client.avail - st.contentLength.toNat }
      httpresponsetext := st.client.input.take st.contentLength.toNat
      stack := st.stack.tail }

/-- `getHTTPResponse()`: the header-await step.  Requires 17 available bytes
before parsing; finds `HTTP/1.1`, parses the status code, and (only on 200)
finds `Content-Length:`, parses it, finds the blank line, re-arms the
deadline, replaces itself by the body step and runs it once. -/
def getHTTPResponse (st : TS) : TS :=
  if st.client.avail < 17 then
    if 5000 < st.now - st.timestamp1 then
      { st with lastReadStatus := -304, stack := st.stack.tail }
    else st
  else
    match clientFind httpMark st.client with
    | (false, c) => { st with client := c, lastReadStatus := -303, stack := st.stack.tail }
    | (true, c) =>
      match clientParseInt c with
      | (v, c) =>
        if v ≠ 200 then
          { st with client := c, lastReadStatus := v, stack := st.stack.tail }
        else
          match clientFind clMark c with
          | (false, c2) =>
            { st with client := c2, lastReadStatus := -303, stack := st.stack.tail }
          | (true, c2) =>
            match clientParseInt c2 with
            | (len, c3) =>
              match clientFind hdrEnd c3 with
              | (false, c4) =>
                { st with
                  client := c4
                  lastReadStatus := -303
                  contentLength := len
                  stack := st.stack.tail }
              | (true, c4) =>
                getHTTPResponse_1
                  { st with
                    client := c4
                    lastReadStatus := v
                    contentLength := len
                    timestamp1 := st.now
                    stack := Step.getHTTPResponse1 :: st.stack.tail }

/-- `readRaw_1()`: post-processing of a GET — drain stray bytes, stop the
transport, clear the body on any non-200 result, pop. -/
def readRaw_1 (st : TS) : TS :=
  let c := clientStop (drainAvail st.client)
  if st.lastReadStatus ≠ 200 then
    { st with client := c, httpresponsetext := [], stack := st.stack.tail }
  else
    { st with client := c, stack := st.stack.tail }

/-- `finishWrite_1()`: post-processing of a POST — drain, pop, and on a 200
response convert the echoed entry id; id 0 becomes `TS_ERR_NOT_INSERTED`. -/
def finishWrite_1 (st : TS) : TS :=
  let c := drainAvail st.client
  if st.lastReadStatus ≠ 200 then
    { st with client := clientStop c, stack := st.stack.tail }
  else
    let st2 := { st with client := clientStop c, stack := st.stack.tail }
    if atolL st.httpresponsetext = 0 then { st2 with lastReadStatus := -401 } else st2

/-- `run()`: invoke the closure on top of `stackofreturns` (without popping
it — closures pop themselves).  The four `...Ret` steps are the completion
lambdas pushed by the public operations; note that `writeFieldRet` (the
lambda pushed by `writeField`, line 277 of the source) does NOT pop
itself, unlike all its siblings. -/
def run (st : TS) : TS :=
  match st.stack with
  | [] => st
  | Step.getHTTPResponse :: _ => getHTTPResponse st
  | Step.getHTTPResponse1 :: _ => getHTTPResponse_1 st
  | Step.readRaw1 :: _ => readRaw_1 st
  | Step.finishWrite1 :: _ => finishWrite_1 st
  | Step.writeFieldRet :: _ =>
    { st with events := st.events ++ [Ev.writeFieldCb st.lastReadStatus] }
  | Step.writeFieldsRet :: _ =>
    { st with
      stack := st.stack.tail
      events := st.events ++ [Ev.writeFieldsCb st.lastReadStatus] }
  | Step.writeRawRet :: _ =>
    { st with
      stack := st.stack.tail
      events := st.events ++ [Ev.writeRawCb st.lastReadStatus] }
  | Step.readStringRet :: _ =>
    { st with
      stack := st.stack.tail
      events := st.events ++ [Ev.readStringCb st.httpresponsetext] }

/-- Deliver `k` more response bytes from the transport (never more than the
unconsumed input holds). -/
def deliverBytes (k : Nat) (st : TS) : TS :=
  { st with client := { st.client with
      avail := min (st.client.avail + k) st.client.input.length } }

/-- Advance the millisecond clock. -/
def tick (dt : Nat) (st : TS) : TS := { st with now := st.now + dt }

/-- Drive the engine: for each `(k, dt)` in the schedule, deliver `k` bytes,
advance the clock by `dt`, and call `run()` once. -/
def pollSeq : List (Nat × Nat) → TS → TS
  | [], st => st
  | (k, dt) :: sched, st => pollSeq sched (run (tick dt (deliverBytes k st)))

/-- `TS_USER_AGENT` (the platform-independent fallback branch). -/
def tsUserAgent : List Char := "tslib-arduino/2.0.0 (unknown)".data

/-- `writeHTTPHeader(APIKey)`: the common header block. -/
def writeHTTPHeaderText (key : Option (List Char)) : List Char :=
  "Host: api.thingspeak.com\r\n".data ++ "User-Agent: ".data ++ tsUserAgent ++
    "\r\n".data ++
    (match key with
     | some k => "X-THINGSPEAKAPIKEY: ".data ++ k ++ "\r\n".data
     | none => [])

/-- The POST request line, headers and content type common to
`writeRawSilent` and `writeFields`. -/
def requestHead (key : Option (List Char)) : List Char :=
  "POST /update HTTP/1.1\r\n".data ++ writeHTTPHeaderText key ++
    "Content-Type: application/x-www-form-urlencoded\r\n".data

/-- The `"fieldN="` item prefix built by `writeField` and the body loop of
`writeFields`. -/
def fieldPre (i : Nat) : List Char :=
  "field".data ++ (toString i).data ++ "=".data

/-- `abortReadRaw()` and the assignment of its empty return value to
`httpresponsetext`: drain, stop, record `TS_ERR_UNEXPECTED_FAIL`. -/
def abortReadRaw (st : TS) : TS :=
  { st with
    client := clientStop (drainAvail st.client)
    lastReadStatus := -302
    httpresponsetext := [] }

/-- `abortWriteRaw()` together with the caller storing its return value in
`lastReadStatus`: drain, stop, `resetWriteFields()`, record the code. -/
def abortWriteRaw (st : TS) : TS :=
  { st with
    client := clientStop (drainAvail st.client)
    wf := {}
    lastReadStatus := -302 }

/-- `finishWrite()`: flush, clear the response buffer, push `finishWrite_1`
then the header-await step, arm the deadline and run the decoder once. -/
def finishWrite (st : TS) : TS :=
  getHTTPResponse
    { st with
      httpresponsetext := []
      stack := Step.getHTTPResponse :: Step.finishWrite1 :: st.stack
      timestamp1 := st.now }

/-- `readRaw(channelNumber, suffixURL, readAPIKey)`: connect, write the GET
request, arm the deadline, push `readRaw_1` then the header-await step and
run the decoder once.  A failed connect records `TS_ERR_CONNECT_FAILED` and
clears the buffer; a failed write aborts. -/
def readRaw (channelNumber : Nat) (suffixURL : List Char)
    (readAPIKey : Option (List Char)) (st : TS) : TS :=
  match connectThingSpeak st.client with
  | (c, ok) =>
    if !ok then
      { st with client := c, lastReadStatus := -301, httpresponsetext := [] }
    else if !c.writeOk then abortReadRaw { st with client := c }
    else
      let readURL := "/channels/".data ++ (toString channelNumber).data ++ suffixURL
      let c := printAll c
        ( "GET ".data ++ readURL ++ " HTTP/1.1\r\n".data ++
          writeHTTPHeaderText readAPIKey ++ "\r\n".data)
      getHTTPResponse
        { st with
          client := c
          timestamp1 := st.now
          stack := Step.getHTTPResponse :: Step.readRaw1 :: st.stack }

/-- `readStringFieldSilent(channelNumber, field, readAPIKey, silent)`:
validate the field number (error -201 with a cleared buffer, callback only
when not silent), otherwise push the completion frame (when not silent) and
delegate to `readRaw` on `/fields/<field>/last`. -/
def readStringFieldSilent (channelNumber : Nat) (field : Nat)
    (readAPIKey : Option (List Char)) (silent : Bool) (st : TS) : TS :=
  if field < 1 ∨ 8 < field then
    let st := { st with lastReadStatus := -201, httpresponsetext := [] }
    if silent then st
    else { st with events := st.events ++ [Ev.readStringCb st.httpresponsetext] }
  else
    let st :=
      if silent then st else { st with stack := Step.readStringRet :: st.stack }
    readRaw channelNumber
      ( "/fields/".data ++ (toString field).data ++ "/last".data) readAPIKey st

/-- `writeRawSilent(channelNumber, postMessage, writeAPIKey, silent)`:
connect, append `&headers=false`, write the POST (declaring the message
length as `Content-Length`), `resetWriteFields()`, push the completion frame
when not silent, and `finishWrite()`. -/
def writeRawSilent (channelNumber : Nat) (postMessage : List Char)
    (writeAPIKey : Option (List Char)) (silent : Bool) (st : TS) : TS :=
  match connectThingSpeak st.client with
  | (c, ok) =>
    if !ok then
      let st := { st with client := c, lastReadStatus := -301 }
      if silent then st
      else { st with events := st.events ++ [Ev.writeRawCb st.lastReadStatus] }
    else
      let msg := postMessage ++ "&headers=false".data
      if !c.writeOk then
        let st := abortWriteRaw { st with client := c }
        if silent then st
        else { st with events := st.events ++ [Ev.writeRawCb st.lastReadStatus] }
      else
        let c := printAll c
          (requestHead writeAPIKey ++ "Content-Length: ".data ++
            (toString msg.length).data ++ "\r\n\r\n".data ++ msg)
        let st := { st with client := c, wf := {} }
        let st :=
          if silent then st else { st with stack := Step.writeRawRet :: st.stack }
        finishWrite st

/-- `writeRaw` = `writeRawSilent` with `silent = false`. -/
def writeRaw (channelNumber : Nat) (postMessage : List Char)
    (writeAPIKey : Option (List Char)) (st : TS) : TS :=
  writeRawSilent channelNumber postMessage writeAPIKey false st

/-- `writeField(channelNumber, field, value, writeAPIKey)` (the `String`
overload): validate the field number and the value length synchronously,
otherwise push the completion frame — the one lambda in the source that
never pops itself — and delegate to `writeRawSilent`. -/
def writeField (channelNumber : Nat) (field : Nat) (value : List Char)
    (writeAPIKey : Option (List Char)) (st : TS) : TS :=
  if field < 1 ∨ 8 < field then
    { st with events := st.events ++ [Ev.writeFieldCb (-201)] }
  else if 255 < value.length then
    { st with events := st.events ++ [Ev.writeFieldCb (-101)] }
  else
    writeRawSilent channelNumber (fieldPre field ++ value) writeAPIKey true
      { st with stack := Step.writeFieldRet :: st.stack }

/-- One iteration of the length loop of `getWriteFieldsContentLength`: the
`&fieldX=[value]` accounting, including the (dead for indices 0..7)
future-proof branch of the source. -/
def fieldLenContribution (i : Nat) (v : List Char) : Nat :=
  if 0 < v.length then
    8 + v.length + (if 9 < i then 1 else if 99 < i then 2 else 0)
  else 0

/-- The accumulated `contentLen` of `getWriteFieldsContentLength` before the
final `&headers=false` adjustment. -/
def wfBaseLen (w : NextWrite) : Nat :=
  fieldLenContribution 0 w.f1 + fieldLenContribution 1 w.f2 +
  fieldLenContribution 2 w.f3 + fieldLenContribution 3 w.f4 +
  fieldLenContribution 4 w.f5 + fieldLenContribution 5 w.f6 +
  fieldLenContribution 6 w.f7 + fieldLenContribution 7 w.f8 +
  (match w.lat with | some s => 5 + s.length | none => 0) +
  (match w.lon with | some s => 6 + s.length | none => 0) +
  (match w.elev with | some s => 11 + s.length | none => 0) +
  (if 0 < w.stat.length then 8 + w.stat.length else 0) +
  (if 0 < w.twitter.length then 9 + w.twitter.length else 0) +
  (if 0 < w.tweet.length then 7 + w.tweet.length else 0) +
  (if 0 < w.createdAt.length then 12 + w.createdAt.length else 0)

/-- `getWriteFieldsContentLength()`: 0 when nothing is staged, otherwise the
accumulated length plus 13 (add 14 for `&headers=false`, subtract 1 for the
missing first `&`). -/
def getWriteFieldsContentLength (w : NextWrite) : Nat :=
  if wfBaseLen w = 0 then 0 else wfBaseLen w + 13

/-- A staged item that is only emitted when the value is non-empty. -/
def optItem (pre : List Char) (v : List Char) : List (List Char) :=
  if 0 < v.length then [pre ++ v] else []

/-- A staged float item that is only emitted when the float is not NaN. -/
def optItemF (pre : List Char) : Option (List Char) → List (List Char)
  | some v => [pre ++ v]
  | none => []

/-- The `name=value` items the body loop of `writeFields` emits, in source
order. -/
def wfItems (w : NextWrite) : List (List Char) :=
  optItem (fieldPre 1) w.f1 ++ optItem (fieldPre 2) w.f2 ++
  optItem (fieldPre 3) w.f3 ++ optItem (fieldPre 4) w.f4 ++
  optItem (fieldPre 5) w.f5 ++ optItem (fieldPre 6) w.f6 ++
  optItem (fieldPre 7) w.f7 ++ optItem (fieldPre 8) w.f8 ++
  optItemF ( "lat=".data) w.lat ++ optItemF ( "long=".data) w.lon ++
  optItemF ( "elevation=".data) w.elev ++ optItem ( "status=".data) w.stat ++
  optItem ( "twitter=".data) w.twitter ++ optItem ( "tweet=".data) w.tweet ++
  optItem ( "created_at=".data) w.createdAt

/-- Join items with the `&` separator printed before every item but the
first (the `fFirstItem` logic). -/
def ampJoin : List (List Char) → List Char
  | [] => []
  | [x] => x
  | x :: y :: t => x ++ '&' :: ampJoin (y :: t)

/-- The exact body bytes the `writeFields` body loop prints: the joined
items followed by `&headers=false`. -/
def writeFieldsBody (w : NextWrite) : List Char :=
  ampJoin (wfItems w) ++ "&headers=false".data

/-- `writeFields(channelNumber, writeAPIKey)`: connect FIRST (the source
checks `connectThingSpeak()` before anything else), then check that
something is staged (-210 otherwise), then write the POST with the computed
`Content-Length` and the body, `resetWriteFields()`, push the completion
frame and `finishWrite()`. -/
def writeFields (channelNumber : Nat) (writeAPIKey : Option (List Char))
    (st : TS) : TS :=
  match connectThingSpeak st.client with
  | (c, ok) =>
    if !ok then
      { st with client := c, events := st.events ++ [Ev.writeFieldsCb (-301)] }
    else
      let contentLen := getWriteFieldsContentLength st.wf
      if contentLen = 0 then
        { st with client := c, events := st.events ++ [Ev.writeFieldsCb (-210)] }
      else if !c.writeOk then
        let st := { st with
          client := clientStop (drainAvail c)
          wf := {} }
        { st with events := st.events ++ [Ev.writeFieldsCb (-302)] }
      else
        let c := printAll c
          (requestHead writeAPIKey ++ "Content-Length: ".data ++
            (toString contentLen).data ++ "\r\n\r\n".data ++ writeFieldsBody st.wf)
        finishWrite
          { st with
            client := c
            wf := {}
            stack := Step.writeFieldsRet :: st.stack }

/-- `getFieldAsString(field)`: fetch a field of the last stored feed record;
mutates `lastReadStatus` (to 200 or -201) as a side effect. -/
def getFieldAsString (field : Nat) (st : TS) : List Char × TS :=
  if field < 1 ∨ 8 < field then ([], { st with lastReadStatus := -201 })
  else
    (st.lastFeed.nextReadField.getD (field - 1) [],
     { st with lastReadStatus := 200 })

/-- A fresh machine whose transport will deliver `resp` and accepts
connects and writes. -/
def initTS (resp : List Char) : TS :=
  { client := { input := resp } }

/-- `readRaw` issued on a fresh machine whose response buffer still holds
`old` from a previous exchange: the state in which the engine starts
awaiting the response of a GET. -/
def startRead (old : List Char) (resp : List Char) : TS :=
  readRaw 7 ( "/feeds/last.txt".data) none { initTS resp with httpresponsetext := old }

/-- Sum of `1 + length` over a list of items: the per-item cost (separator
plus payload) that both the length precomputation and the body printer pay. -/
def isum (l : List (List Char)) : Nat := (l.map fun x => 1 + x.length).sum

/-- A canned 200 response with a 4-byte body. -/
def sampleResp : List Char :=
  "HTTP/1.1 200 OK\r\nContent-Length: 4\r\n\r\n12.5".data

/-- A canned 200 response whose body echoes entry id 7. -/
def respEcho : List Char :=
  "HTTP/1.1 200 OK\r\nContent-Length: 1\r\n\r\n7".data

/-- A canned 404 response. -/
def resp404 : List Char :=
  "HTTP/1.1 404 Not Found\r\nContent-Length: 9\r\n\r\nnot found".data

/-- A canned 200 response whose body echoes entry id 0 (rejected write). -/
def respZero : List Char :=
  "HTTP/1.1 200 OK\r\nContent-Length: 1\r\n\r\n0".data

/-- The staged fields of the spec's round-trip example. -/
def w42 : NextWrite := { f1 := "42".data, f2 := "3.14000".data }

/-- The request bytes `startRead` writes. -/
def startReadReq : List Char :=
  "GET ".data ++ "/channels/".data ++ (toString 7).data ++
    ( "/feeds/last.txt".data) ++ " HTTP/1.1\r\n".data ++
    writeHTTPHeaderText none ++ "\r\n".data

/-- The explicit machine state right after `startRead`: request written,
deadline armed at clock 0, stack holding the header-await step above the
`readRaw_1` post-processing frame, nothing delivered yet. -/
def startReadState (old resp : List Char) : TS :=
  { client :=
      { input := resp
        avail := 0
        connectOk := true
        writeOk := true
        connected := true
        connects := 1
        stops := 0
        writes := startReadReq }
    httpresponsetext := old
    stack := [Step.getHTTPResponse, Step.readRaw1] }

/-- A delivered stream that never contains the `HTTP/1.1` marker. -/
def respNoMark : List Char := "xxxxxxxxxxxxxxxxx".data

/-- A 200 status line with no `Content-Length` header. -/
def respNoCL : List Char := "HTTP/1.1 200 OK\r\n\r\n".data

/-- A 200 status line and `Content-Length` but no blank-line terminator. -/
def respNoEnd : List Char := "HTTP/1.1 200 OK\r\nContent-Length: 4".data

/-! ## Small stepping lemmas -/

theorem run_stack_nil (st : TS) (h : st.stack = []) : run st = st := by
  simp [run, h]

theorem clientFind_writes (pat : List Char) (c : ClientState) :
    (clientFind pat c).2.writes = c.writes := by
  unfold clientFind
  cases h : dropThrough pat c.input <;> simp [ClientState.consumeTo]

theorem clientParseInt_writes (c : ClientState) :
    (clientParseInt c).2.writes = c.writes := rfl

theorem getHTTPResponse_1_writes (st : TS) :
    (getHTTPResponse_1 st).client.writes = st.client.writes := by
  unfold getHTTPResponse_1
  split
  · split <;> rfl
  · rfl

theorem clientFind_writes2 {pat : List Char} {c : ClientState} {b : Bool}
    {c2 : ClientState} (h : clientFind pat c = (b, c2)) : c2.writes = c.writes := by
  have hx := clientFind_writes pat c
  rw [h] at hx
  simpa using hx

theorem clientParseInt_writes2 {c : ClientState} {v : Int} {c2 : ClientState}
    (h : clientParseInt c = (v, c2)) : c2.writes = c.writes := by
  have hx := clientParseInt_writes c
  rw [h] at hx
  simpa using hx

theorem getHTTPResponse_writes (st : TS) :
    (getHTTPResponse st).client.writes = st.client.writes := by
  unfold getHTTPResponse
  split
  · split <;> rfl
  · split
    · next c h => simp [clientFind_writes2 h]
    · next c h =>
      split
      next v c2 h2 =>
      split
      · simp [clientParseInt_writes2 h2, clientFind_writes2 h]
      · split
        · next c3 h3 =>
          simp [clientFind_writes2 h3, clientParseInt_writes2 h2, clientFind_writes2 h]
        · next c3 h3 =>
          split
          next len c4 h4 =>
          split
          · next c5 h5 =>
            simp [clientFind_writes2 h5, clientParseInt_writes2 h4,
              clientFind_writes2 h3, clientParseInt_writes2 h2, clientFind_writes2 h]
          · next c5 h5 =>
            rw [getHTTPResponse_1_writes]
            simp [clientFind_writes2 h5, clientParseInt_writes2 h4,
              clientFind_writes2 h3, clientParseInt_writes2 h2, clientFind_writes2 h]

theorem finishWrite_writes (st : TS) :
    (finishWrite st).client.writes = st.client.writes := by
  unfold finishWrite
  rw [getHTTPResponse_writes]

/-! ## Claims -/

/-- C10: for a field number in 1..8, `getFieldAsString` returns the stored
value of that field from the last feed record and sets `lastReadStatus` to
200 (overwriting whatever status was there before, including errors); for a
field number outside 1..8 it returns the empty string and sets
`lastReadStatus` to -201. -/
theorem getFieldAsString_spec (st : TS) (field : Nat) :
    (1 ≤ field → field ≤ 8 →
      getFieldAsString field st =
        (st.lastFeed.nextReadField.getD (field - 1) [],
         { st with lastReadStatus := 200 })) ∧
    (field < 1 ∨ 8 < field →
      getFieldAsString field st = ([], { st with lastReadStatus := -201 })) := by
  constructor
  · intro h1 h2
    have hc : ¬(field < 1 ∨ 8 < field) := by omega
    simp [getFieldAsString, hc]
    omega
  · intro h
    simp [getFieldAsString, h]
    omega

theorem getFieldAsString_spec_witness :
    (1 ≤ 3 ∧ 3 ≤ 8 ∧
      getFieldAsString 3 { initTS [] with lastReadStatus := -304 } =
        (({ initTS [] with lastReadStatus := -304 } : TS).lastFeed.nextReadField.getD 2 [],
         { ({ initTS [] with lastReadStatus := -304 } : TS) with lastReadStatus := 200 })) ∧
    ((9 < 1 ∨ 8 < 9) ∧
      getFieldAsString 9 { initTS [] with lastReadStatus := -304 } =
        ([], { ({ initTS [] with lastReadStatus := -304 } : TS) with lastReadStatus := -201 })) :=
  ⟨⟨by decide, by decide,
    (getFieldAsString_spec { initTS [] with lastReadStatus := -304 } 3).1
      (by decide) (by decide)⟩,
   ⟨by decide,
    (getFieldAsString_spec { initTS [] with lastReadStatus := -304 } 9).2
      (by decide)⟩⟩

/-- C8: when `finishWrite_1` runs on a 200 result, the echoed entry id is
converted with `toInt`; id 0 (including any non-numeric body) turns the
terminal status into -401 (`TS_ERR_NOT_INSERTED`), a nonzero id leaves it at
200; either way the transport is stopped once and the frame pops. -/
theorem zero_entry_id_not_inserted (st : TS) (rest : List Step)
    (hstk : st.stack = Step.finishWrite1 :: rest)
    (h200 : st.lastReadStatus = 200) :
    (run st).lastReadStatus =
      (if atolL st.httpresponsetext = 0 then (-401 : Int) else 200) ∧
    (run st).client.stops = st.client.stops + 1 ∧
    (run st).stack = rest := by
  have hr : run st = finishWrite_1 st := by simp [run, hstk]
  rw [hr]
  unfold finishWrite_1
  rw [h200]
  simp [hstk, clientStop, drainAvail]
  split <;> simp [h200]

theorem zero_entry_id_not_inserted_witness :
    (let st : TS :=
      { initTS [] with stack := [Step.finishWrite1], httpresponsetext := "0".data }
     (run st).lastReadStatus =
        (if atolL st.httpresponsetext = 0 then (-401 : Int) else 200) ∧
     (run st).client.stops = st.client.stops + 1 ∧
     (run st).stack = []) :=
  zero_entry_id_not_inserted _ [] rfl rfl

/-- C3 (counterexample): `writeFields` with nothing staged reports -210, but
only AFTER a `client->connect(...)` attempt — the source calls
`connectThingSpeak()` before checking the content length, so the -210 error
is not free of transport activity as the claim states. -/
theorem writeFields_connects_before_missing_field_check :
    (let st := writeFields 5 (some ( "KEY".data)) (initTS [])
     st.events = [Ev.writeFieldsCb (-210)] ∧ st.client.connects = 1) := by
  decide

/-- C3 (amended): the -201 and -101 validation errors of `writeField` and
the -201 error of `readStringFieldSilent` are produced synchronously with no
transport side effects at all (the client is untouched: no connect, write,
read or close); the -210 error of `writeFields` is produced synchronously
before any write, read or close, but after exactly one (successful) connect
attempt. -/
theorem validation_errors_synchronous (st : TS) (ch field : Nat)
    (v : List Char) (key : Option (List Char)) (silent : Bool) :
    (field < 1 ∨ 8 < field →
      writeField ch field v key st =
        { st with events := st.events ++ [Ev.writeFieldCb (-201)] }) ∧
    (¬(field < 1 ∨ 8 < field) → 255 < v.length →
      writeField ch field v key st =
        { st with events := st.events ++ [Ev.writeFieldCb (-101)] }) ∧
    (field < 1 ∨ 8 < field →
      readStringFieldSilent ch field key silent st =
        (if silent then
          { st with lastReadStatus := -201, httpresponsetext := [] }
         else
          { st with
            lastReadStatus := -201
            httpresponsetext := []
            events := st.events ++ [Ev.readStringCb []] })) ∧
    (st.client.connectOk = true → getWriteFieldsContentLength st.wf = 0 →
      writeFields ch key st =
        { st with
          client := { st.client with
            connects := st.client.connects + 1
            connected := true }
          events := st.events ++ [Ev.writeFieldsCb (-210)] }) := by
  refine ⟨?_, ?_, ?_, ?_⟩
  · intro h
    unfold writeField
    rw [if_pos h]
  · intro h h2
    unfold writeField
    rw [if_neg h, if_pos h2]
  · intro h
    unfold readStringFieldSilent
    rw [if_pos h]
  · intro hc hcl
    simp [writeFields, connectThingSpeak, hc, hcl]

theorem validation_errors_synchronous_witness :
    ((9 < 1 ∨ 8 < 9) ∧
      writeField 5 9 ( "x".data) none (initTS []) =
        { initTS [] with events := [Ev.writeFieldCb (-201)] }) ∧
    ((initTS []).client.connectOk = true ∧
      getWriteFieldsContentLength (initTS []).wf = 0 ∧
      writeFields 5 none (initTS []) =
        { initTS [] with
          client := { (initTS []).client with connects := 1, connected := true }
          events := [Ev.writeFieldsCb (-210)] }) := by
  constructor
  · refine ⟨by decide, ?_⟩
    have h := (validation_errors_synchronous (initTS []) 5 9
      ( "x".data) none false).1 (by decide)
    simpa using h
  · refine ⟨by decide, by decide, ?_⟩
    have h := (validation_errors_synchronous (initTS []) 5 9
      ( "x".data) none false).2.2.2 (by decide) (by decide)
    simpa using h

/-- C2 (the code as written): a complete successful `writeField` exchange
fires `onWriteFieldCallback` but leaves its completion frame on
`stackofreturns` forever — the lambda pushed by `writeField` never pops
itself, so the stack is NOT empty after the caller-visible completion
callback has fired, and every further `run()` fires the callback again. -/
theorem writeField_frame_never_popped :
    (let st := pollSeq [(respEcho.length, 0), (0, 0), (0, 0), (0, 0), (0, 0)]
        (writeField 0 1 ( "42".data) none (initTS respEcho))
     st.events = [Ev.writeFieldCb 200, Ev.writeFieldCb 200, Ev.writeFieldCb 200] ∧
     st.stack = [Step.writeFieldRet] ∧
     st.lastReadStatus = 200) := by
  decide

/-! ## Content-length arithmetic (C6) -/

theorem isum_append (a b : List (List Char)) : isum (a ++ b) = isum a + isum b := by
  simp [isum]

theorem isum_optItem (pre v : List Char) :
    isum (optItem pre v) = if 0 < v.length then 1 + pre.length + v.length else 0 := by
  unfold optItem
  split <;> simp [isum] <;> omega

theorem isum_optItemF (pre : List Char) (o : Option (List Char)) :
    isum (optItemF pre o) =
      (match o with | some v => 1 + pre.length + v.length | none => 0) := by
  cases o <;> simp [optItemF, isum] <;> omega

theorem ampJoin_length (x : List Char) (t : List (List Char)) :
    (ampJoin (x :: t)).length + 1 = isum (x :: t) := by
  induction t generalizing x with
  | nil => simp [ampJoin, isum]; omega
  | cons y t ih =>
    have hy := ih y
    simp [ampJoin, isum] at hy ⊢
    omega

theorem wfBaseLen_eq (w : NextWrite) : wfBaseLen w = isum (wfItems w) := by
  have p1 : (fieldPre 1).length = 7 := by decide
  have p2 : (fieldPre 2).length = 7 := by decide
  have p3 : (fieldPre 3).length = 7 := by decide
  have p4 : (fieldPre 4).length = 7 := by decide
  have p5 : (fieldPre 5).length = 7 := by decide
  have p6 : (fieldPre 6).length = 7 := by decide
  have p7 : (fieldPre 7).length = 7 := by decide
  have p8 : (fieldPre 8).length = 7 := by decide
  have q : ∀ (i : Nat) (pre v : List Char), i < 9 → pre.length = 7 →
      fieldLenContribution i v = isum (optItem pre v) := by
    intro i pre v hi hp
    rw [isum_optItem, hp]
    unfold fieldLenContribution
    have h9 : ¬(9 < i) := by omega
    have h99 : ¬(99 < i) := by omega
    rw [if_neg h9, if_neg h99]
    split <;> omega
  have qs : ∀ (k : Nat) (pre v : List Char), pre.length + 1 = k →
      (if 0 < v.length then k + v.length else 0) = isum (optItem pre v) := by
    intro k pre v hk
    rw [isum_optItem]
    split <;> omega
  have qf : ∀ (k : Nat) (pre : List Char) (o : Option (List Char)),
      pre.length + 1 = k →
      (match o with | some x => k + x.length | none => 0) =
        isum (optItemF pre o) := by
    intro k pre o hk
    rw [isum_optItemF]
    cases o <;> simp <;> omega
  simp only [wfItems, isum_append]
  rw [← q 0 _ w.f1 (by omega) p1, ← q 1 _ w.f2 (by omega) p2,
    ← q 2 _ w.f3 (by omega) p3, ← q 3 _ w.f4 (by omega) p4,
    ← q 4 _ w.f5 (by omega) p5, ← q 5 _ w.f6 (by omega) p6,
    ← q 6 _ w.f7 (by omega) p7, ← q 7 _ w.f8 (by omega) p8,
    ← qf 5 _ w.lat (by decide), ← qf 6 _ w.lon (by decide),
    ← qf 11 _ w.elev (by decide), ← qs 8 _ w.stat (by decide),
    ← qs 9 _ w.twitter (by decide), ← qs 7 _ w.tweet (by decide),
    ← qs 12 _ w.createdAt (by decide)]
  unfold wfBaseLen
  omega

theorem contentLen_eq_bodyLen (w : NextWrite)
    (h : getWriteFieldsContentLength w ≠ 0) :
    getWriteFieldsContentLength w = (writeFieldsBody w).length := by
  have hb : wfBaseLen w ≠ 0 := by
    intro h0
    rw [getWriteFieldsContentLength, if_pos h0] at h
    exact h rfl
  have heq := wfBaseLen_eq w
  have hne : wfItems w ≠ [] := by
    intro h0
    rw [h0] at heq
    simp [isum] at heq
    exact hb heq
  obtain ⟨x, t, hxt⟩ : ∃ x t, wfItems w = x :: t := by
    cases hw : wfItems w with
    | nil => exact absurd hw hne
    | cons a b => exact ⟨a, b, rfl⟩
  have hj := ampJoin_length x t
  have hhf : (( "&headers=false".data) : List Char).length = 14 := by decide
  rw [getWriteFieldsContentLength, if_neg hb, writeFieldsBody, hxt]
  rw [hxt] at heq
  simp only [List.length_append, hhf]
  omega

/-- C6: for every POST — `writeRaw`/`writeRawSilent` and `writeFields`
alike — the decimal value written after `Content-Length: ` equals the exact
number of body bytes subsequently written.  For `writeFields` the
precomputed `getWriteFieldsContentLength` equals the length of the body the
print loop emits (items joined by `&` plus `&headers=false`) and the wire
bytes declare exactly that length; for `writeRawSilent` (and `writeRaw`,
which is `writeRawSilent` with `silent = false`) the wire bytes declare the
length of `postMessage ++ "&headers=false"`, which is exactly the body then
written; and the spec's example body `field1=42&field2=3.14000&headers=false`
declares Content-Length 38. -/
theorem contentLength_matches_body :
    (∀ w : NextWrite, getWriteFieldsContentLength w ≠ 0 →
        getWriteFieldsContentLength w = (writeFieldsBody w).length) ∧
    (∀ (st : TS) (ch : Nat) (key : Option (List Char)),
        st.client.connectOk = true → st.client.writeOk = true →
        getWriteFieldsContentLength st.wf ≠ 0 →
        (writeFields ch key st).client.writes =
          st.client.writes ++ requestHead key ++ ( "Content-Length: ".data) ++
            (toString ((writeFieldsBody st.wf).length)).data ++
            ( "\r\n\r\n".data) ++ writeFieldsBody st.wf) ∧
    (∀ (st : TS) (ch : Nat) (msg : List Char) (key : Option (List Char))
        (silent : Bool),
        st.client.connectOk = true → st.client.writeOk = true →
        (writeRawSilent ch msg key silent st).client.writes =
          st.client.writes ++ requestHead key ++ ( "Content-Length: ".data) ++
            (toString ((msg ++ ( "&headers=false".data)).length)).data ++
            ( "\r\n\r\n".data) ++ (msg ++ ( "&headers=false".data))) ∧
    (∀ (st : TS) (ch : Nat) (msg : List Char) (key : Option (List Char)),
        writeRaw ch msg key st = writeRawSilent ch msg key false st) ∧
    (writeFieldsBody w42 = ( "field1=42&field2=3.14000&headers=false".data) ∧
      getWriteFieldsContentLength w42 = 38) := by
  refine ⟨contentLen_eq_bodyLen, ?_, ?_, fun st ch msg key => rfl, by decide, by decide⟩
  · intro st ch key hconn hwr hcl
    unfold writeFields connectThingSpeak
    simp only [hconn]
    rw [if_neg (by simp)]
    rw [if_neg hcl]
    rw [if_neg (by simp [hwr])]
    rw [finishWrite_writes]
    rw [← contentLen_eq_bodyLen st.wf hcl]
    simp [printAll]
  · intro st ch msg key silent hconn hwr
    unfold writeRawSilent connectThingSpeak
    simp only [hconn]
    rw [if_neg (by simp)]
    rw [if_neg (by simp [hwr])]
    cases silent
    · rw [finishWrite_writes]
      simp [printAll]
    · rw [finishWrite_writes]
      simp [printAll]

theorem contentLength_matches_body_witness :
    (getWriteFieldsContentLength w42 ≠ 0 ∧
      getWriteFieldsContentLength w42 = (writeFieldsBody w42).length) ∧
    (({ initTS [] with wf := w42 } : TS).client.connectOk = true ∧
      ({ initTS [] with wf := w42 } : TS).client.writeOk = true ∧
      getWriteFieldsContentLength ({ initTS [] with wf := w42 } : TS).wf ≠ 0 ∧
      (writeFields 3 none { initTS [] with wf := w42 }).client.writes =
        ({ initTS [] with wf := w42 } : TS).client.writes ++ requestHead none ++
          ( "Content-Length: ".data) ++
          (toString ((writeFieldsBody ({ initTS [] with wf := w42 } : TS).wf).length)).data ++
          ( "\r\n\r\n".data) ++
          writeFieldsBody ({ initTS [] with wf := w42 } : TS).wf) ∧
    ((initTS []).client.connectOk = true ∧
      (initTS []).client.writeOk = true ∧
      (writeRawSilent 0 ( "field1=42".data) none false (initTS [])).client.writes =
        (initTS []).client.writes ++ requestHead none ++
          ( "Content-Length: ".data) ++
          (toString ((( "field1=42".data) ++ ( "&headers=false".data)).length)).data ++
          ( "\r\n\r\n".data) ++
          (( "field1=42".data) ++ ( "&headers=false".data))) := by
  refine ⟨⟨by decide, contentLength_matches_body.1 w42 (by decide)⟩,
    ⟨by decide, by decide, by decide, ?_⟩, ⟨by decide, by decide, ?_⟩⟩
  · exact contentLength_matches_body.2.1 { initTS [] with wf := w42 } 3 none
      (by decide) (by decide) (by decide)
  · exact contentLength_matches_body.2.2.1 (initTS []) 0 ( "field1=42".data)
      none false (by decide) (by decide)

/-! ## Length bookkeeping for the parser -/

theorem leadsWith_length {p s : List Char} (h : leadsWith p s = true) :
    p.length ≤ s.length := by
  induction p generalizing s with
  | nil => simp
  | cons a as ih =>
    cases s with
    | nil => simp [leadsWith] at h
    | cons b bs =>
      simp only [leadsWith, Bool.and_eq_true] at h
      have := ih h.2
      simp
      omega

theorem dropThrough_length {pat s r : List Char}
    (h : dropThrough pat s = some r) : pat.length + r.length ≤ s.length := by
  induction s with
  | nil =>
    unfold dropThrough at h
    split at h
    · next hp =>
      simp at h
      simp [List.isEmpty_iff.mp hp, ← h]
    · exact absurd h (by simp)
  | cons c rest ih =>
    unfold dropThrough at h
    split at h
    · next hl =>
      have hle := leadsWith_length hl
      simp at h
      subst h
      simp only [List.length_cons, List.length_drop] at hle ⊢
      omega
    · have := ih h
      simp only [List.length_cons] at this ⊢
      omega

theorem parseDigits_length (acc : Int) (s : List Char) :
    (parseDigits acc s).2.length ≤ s.length := by
  induction s generalizing acc with
  | nil => simp [parseDigits]
  | cons c rest ih =>
    unfold parseDigits
    split
    · exact (ih _).trans (by simp)
    · simp

theorem skipToDigit_length (s : List Char) :
    (skipToDigit s).length ≤ s.length := by
  induction s with
  | nil => simp [skipToDigit]
  | cons c rest ih =>
    unfold skipToDigit
    split
    · simp
    · exact ih.trans (by simp)

theorem parseIntL_length (s : List Char) : (parseIntL s).2.length ≤ s.length := by
  unfold parseIntL
  split
  · simp
  · next c rest hskip =>
    have hsk : (c :: rest).length ≤ s.length := by
      rw [← hskip]
      exact skipToDigit_length s
    split
    · split
      next v r hpd =>
      have := parseDigits_length 0 rest
      rw [hpd] at this
      simp at this ⊢
      simp at hsk
      omega
    · exact (parseDigits_length 0 (c :: rest)).trans hsk

/-! ## Single-step lemmas for the decoder -/

theorem run_G_wait (st : TS) (rest : List Step)
    (hstk : st.stack = Step.getHTTPResponse :: rest)
    (ha : st.client.avail < 17) (ht : st.now - st.timestamp1 ≤ 5000) :
    run st = st := by
  have hr : run st = getHTTPResponse st := by simp [run, hstk]
  rw [hr]
  unfold getHTTPResponse
  rw [if_pos ha, if_neg (by omega)]

theorem G1_wait (st : TS)
    (hlt : (st.client.avail : Int) < st.contentLength)
    (ht : st.now - st.timestamp1 ≤ 5000) :
    getHTTPResponse_1 st = st := by
  unfold getHTTPResponse_1
  rw [if_pos hlt, if_neg (by omega)]

theorem run_G1_wait (st : TS) (rest : List Step)
    (hstk : st.stack = Step.getHTTPResponse1 :: rest)
    (hlt : (st.client.avail : Int) < st.contentLength)
    (ht : st.now - st.timestamp1 ≤ 5000) :
    run st = st := by
  have hr : run st = getHTTPResponse_1 st := by simp [run, hstk]
  rw [hr]
  exact G1_wait st hlt ht

theorem G1_read (st : TS) (n : Nat) (hn : st.contentLength = (n : Int))
    (hge : n ≤ st.client.avail) :
    getHTTPResponse_1 st =
      { st with
        client := { st.client with
          input := st.client.input.drop n
          avail := st.client.avail - n }
        httpresponsetext := st.client.input.take n
        stack := st.stack.tail } := by
  unfold getHTTPResponse_1
  rw [if_neg (by rw [hn]; exact_mod_cast not_lt.mpr hge)]
  rw [hn]
  simp

theorem run_G1_read (st : TS) (rest : List Step) (n : Nat)
    (hstk : st.stack = Step.getHTTPResponse1 :: rest)
    (hn : st.contentLength = (n : Int)) (hge : n ≤ st.client.avail) :
    run st =
      { st with
        client := { st.client with
          input := st.client.input.drop n
          avail := st.client.avail - n }
        httpresponsetext := st.client.input.take n
        stack := rest } := by
  have hr : run st = getHTTPResponse_1 st := by simp [run, hstk]
  rw [hr, G1_read st n hn hge, hstk]
  rfl

theorem run_RR1_200 (st : TS) (rest : List Step)
    (hstk : st.stack = Step.readRaw1 :: rest) (h200 : st.lastReadStatus = 200) :
    run st = { st with client := clientStop (drainAvail st.client), stack := rest } := by
  have hr : run st = readRaw_1 st := by simp [run, hstk]
  rw [hr]
  unfold readRaw_1
  rw [if_neg (by simp [h200]), hstk]
  rfl

theorem run_RR1_non200 (st : TS) (rest : List Step)
    (hstk : st.stack = Step.readRaw1 :: rest) (h : st.lastReadStatus ≠ 200) :
    run st =
      { st with
        client := clientStop (drainAvail st.client)
        httpresponsetext := []
        stack := rest } := by
  have hr : run st = readRaw_1 st := by simp [run, hstk]
  rw [hr]
  unfold readRaw_1
  rw [if_pos h, hstk]
  rfl

theorem startRead_eq (old resp : List Char) :
    startRead old resp = startReadState old resp := by
  rfl

/-- The full header-parse transition of `getHTTPResponse`: with at least 17
bytes available and a well-formed 200 header section, one `run()` performs
the entire status-line / Content-Length / header-end parse, re-arms the
deadline, swaps itself for the body-await step and runs it once. -/
theorem run_G_success (st : TS) (rest : List Step) (r1 r2 r3 r4 r5 : List Char)
    (n : Nat)
    (hstk : st.stack = Step.getHTTPResponse :: rest)
    (hav : ¬ st.client.avail < 17)
    (h1 : dropThrough httpMark st.client.input = some r1)
    (h2 : parseIntL r1 = (200, r2))
    (h3 : dropThrough clMark r2 = some r3)
    (h4 : parseIntL r3 = ((n : Int), r4))
    (h5 : dropThrough hdrEnd r4 = some r5) :
    run st = getHTTPResponse_1
      { st with
        client := { st.client with
          input := r5
          avail := st.client.avail - (st.client.input.length - r5.length) }
        lastReadStatus := 200
        contentLength := (n : Int)
        timestamp1 := st.now
        stack := Step.getHTTPResponse1 :: rest } := by
  have l1 := dropThrough_length h1
  have l2 := parseIntL_length r1
  rw [h2] at l2
  have l3 := dropThrough_length h3
  have l4 := parseIntL_length r3
  rw [h4] at l4
  have l5 := dropThrough_length h5
  simp only at l2 l4
  have hr : run st = getHTTPResponse st := by simp [run, hstk]
  rw [hr]
  unfold getHTTPResponse
  rw [if_neg hav]
  simp only [clientFind, clientParseInt, ClientState.consumeTo, h1, h2, h3, h4, h5,
    hstk]
  norm_num
  congr 1
  simp only [TS.mk.injEq, ClientState.mk.injEq, and_true, true_and, and_self]
  omega

/-- The non-200 transition of `getHTTPResponse`: the status code is recorded
verbatim, the step pops itself, and neither `Content-Length` parsing nor the
header terminator nor the body is consumed (`contentLength` untouched). -/
theorem run_G_non200 (st : TS) (rest : List Step) (r1 r2 : List Char) (v : Int)
    (hstk : st.stack = Step.getHTTPResponse :: rest)
    (hav : ¬ st.client.avail < 17)
    (h1 : dropThrough httpMark st.client.input = some r1)
    (h2 : parseIntL r1 = (v, r2))
    (hv : v ≠ 200) :
    run st =
      { st with
        client := { st.client with
          input := r2
          avail := st.client.avail - (st.client.input.length - r2.length) }
        lastReadStatus := v
        stack := rest } := by
  have l1 := dropThrough_length h1
  have l2 := parseIntL_length r1
  rw [h2] at l2
  simp only at l2
  have hr : run st = getHTTPResponse st := by simp [run, hstk]
  rw [hr]
  unfold getHTTPResponse
  rw [if_neg hav]
  simp only [clientFind, clientParseInt, ClientState.consumeTo, h1, h2, hstk]
  rw [if_pos hv]
  congr 1
  simp only [TS.mk.injEq, ClientState.mk.injEq, and_true, true_and, and_self]
  omega

/-- The status-line failure of `getHTTPResponse`: the `HTTP/1.1` marker is
nowhere in the stream, so `find` exhausts it and the step fails with
`TS_ERR_BAD_RESPONSE`. -/
theorem run_G_fail_mark (st : TS) (rest : List Step)
    (hstk : st.stack = Step.getHTTPResponse :: rest)
    (hav : ¬ st.client.avail < 17)
    (h1 : dropThrough httpMark st.client.input = none) :
    run st =
      { st with
        client := { st.client with input := [], avail := 0 }
        lastReadStatus := -303
        stack := rest } := by
  have hr : run st = getHTTPResponse st := by simp [run, hstk]
  rw [hr]
  unfold getHTTPResponse
  rw [if_neg hav]
  simp only [clientFind, h1, hstk]
  rfl

/-- The `Content-Length` failure of `getHTTPResponse`: a 200 status parses
but the header name is absent, so the step fails with
`TS_ERR_BAD_RESPONSE`. -/
theorem run_G_fail_cl (st : TS) (rest : List Step) (r1 r2 : List Char)
    (hstk : st.stack = Step.getHTTPResponse :: rest)
    (hav : ¬ st.client.avail < 17)
    (h1 : dropThrough httpMark st.client.input = some r1)
    (h2 : parseIntL r1 = (200, r2))
    (h3 : dropThrough clMark r2 = none) :
    run st =
      { st with
        client := { st.client with input := [], avail := 0 }
        lastReadStatus := -303
        stack := rest } := by
  have hr : run st = getHTTPResponse st := by simp [run, hstk]
  rw [hr]
  unfold getHTTPResponse
  rw [if_neg hav]
  simp only [clientFind, clientParseInt, ClientState.consumeTo, h1, h2, h3, hstk]
  norm_num

/-- The header-terminator failure of `getHTTPResponse`: status 200 and
`Content-Length` parse (the parsed length is stored) but the blank line is
absent, so the step fails with `TS_ERR_BAD_RESPONSE`. -/
theorem run_G_fail_end (st : TS) (rest : List Step) (r1 r2 r3 r4 : List Char)
    (len : Int)
    (hstk : st.stack = Step.getHTTPResponse :: rest)
    (hav : ¬ st.client.avail < 17)
    (h1 : dropThrough httpMark st.client.input = some r1)
    (h2 : parseIntL r1 = (200, r2))
    (h3 : dropThrough clMark r2 = some r3)
    (h4 : parseIntL r3 = (len, r4))
    (h5 : dropThrough hdrEnd r4 = none) :
    run st =
      { st with
        client := { st.client with input := [], avail := 0 }
        lastReadStatus := -303
        contentLength := len
        stack := rest } := by
  have hr : run st = getHTTPResponse st := by simp [run, hstk]
  rw [hr]
  unfold getHTTPResponse
  rw [if_neg hav]
  simp only [clientFind, clientParseInt, ClientState.consumeTo, h1, h2, h3, h4, h5, hstk]
  norm_num

/-! ## Poll-sequence lemmas -/

theorem tick_zero (st : TS) : tick 0 st = st := rfl

theorem pollSeq_append (a b : List (Nat × Nat)) (st : TS) :
    pollSeq (a ++ b) st = pollSeq b (pollSeq a st) := by
  induction a generalizing st with
  | nil => rfl
  | cons x t ih =>
    cases x with
    | mk k dt => simp [pollSeq, ih]

theorem deliverBytes_eq (k : Nat) (st : TS)
    (h : st.client.avail + k ≤ st.client.input.length) :
    deliverBytes k st =
      { st with client := { st.client with avail := st.client.avail + k } } := by
  unfold deliverBytes
  rw [min_eq_left h]

theorem pollSeq_nil_obs (sched : List (Nat × Nat)) (st : TS) (h : st.stack = []) :
    (pollSeq sched st).lastReadStatus = st.lastReadStatus ∧
    (pollSeq sched st).httpresponsetext = st.httpresponsetext ∧
    (pollSeq sched st).stack = [] ∧
    (pollSeq sched st).client.stops = st.client.stops := by
  induction sched generalizing st with
  | nil => simp [pollSeq, h]
  | cons x t ih =>
    cases x with
    | mk k dt =>
      have h2 : (tick dt (deliverBytes k st)).stack = [] := by
        simp [tick, deliverBytes, h]
      have hrun : run (tick dt (deliverBytes k st)) = tick dt (deliverBytes k st) :=
        run_stack_nil _ h2
      have hx := ih (tick dt (deliverBytes k st)) h2
      simp only [pollSeq, hrun] at hx ⊢
      simpa [tick, deliverBytes] using hx

theorem pollSeq_ones_G (k : Nat) (st : TS) (rest : List Step)
    (hstk : st.stack = Step.getHTTPResponse :: rest)
    (hts : st.now = st.timestamp1)
    (hk : st.client.avail + k < 17)
    (hlen : st.client.avail + k ≤ st.client.input.length) :
    pollSeq (List.replicate k (1, 0)) st =
      { st with client := { st.client with avail := st.client.avail + k } } := by
  induction k generalizing st with
  | zero => rfl
  | succ k ih =>
    have h1len : st.client.avail + 1 ≤ st.client.input.length := by omega
    rw [List.replicate_succ]
    have hstep : pollSeq ((1, 0) :: List.replicate k (1, 0)) st =
        pollSeq (List.replicate k (1, 0)) (run (tick 0 (deliverBytes 1 st))) := rfl
    rw [hstep, tick_zero, deliverBytes_eq 1 st h1len]
    set st2 : TS := { st with client := { st.client with avail := st.client.avail + 1 } } with hst2
    have hstk2 : st2.stack = Step.getHTTPResponse :: rest := hstk
    have hts2 : st2.now = st2.timestamp1 := hts
    have ea : st2.client.avail = st.client.avail + 1 := by rw [hst2]
    have ei : st2.client.input = st.client.input := by rw [hst2]
    have hav2 : st2.client.avail < 17 := by omega
    have ht2 : st2.now - st2.timestamp1 ≤ 5000 := by
      rw [hts2]
      omega
    rw [run_G_wait st2 rest hstk2 hav2 ht2]
    have hk2 : st2.client.avail + k < 17 := by omega
    have hlen2 : st2.client.avail + k ≤ st2.client.input.length := by
      rw [ea, ei]
      omega
    rw [ih st2 hstk2 hts2 hk2 hlen2, hst2]
    congr 1
    simp only [TS.mk.injEq, ClientState.mk.injEq, and_true, true_and, and_self]
    omega

theorem pollSeq_ones_G1 (k : Nat) (st : TS) (rest : List Step) (n : Nat)
    (hstk : st.stack = Step.getHTTPResponse1 :: rest)
    (hts : st.now = st.timestamp1)
    (hn : st.contentLength = (n : Int))
    (hk : st.client.avail + k < n)
    (hlen : st.client.avail + k ≤ st.client.input.length) :
    pollSeq (List.replicate k (1, 0)) st =
      { st with client := { st.client with avail := st.client.avail + k } } := by
  induction k generalizing st with
  | zero => rfl
  | succ k ih =>
    have h1len : st.client.avail + 1 ≤ st.client.input.length := by omega
    rw [List.replicate_succ]
    have hstep : pollSeq ((1, 0) :: List.replicate k (1, 0)) st =
        pollSeq (List.replicate k (1, 0)) (run (tick 0 (deliverBytes 1 st))) := rfl
    rw [hstep, tick_zero, deliverBytes_eq 1 st h1len]
    set st2 : TS := { st with client := { st.client with avail := st.client.avail + 1 } } with hst2
    have hstk2 : st2.stack = Step.getHTTPResponse1 :: rest := hstk
    have hts2 : st2.now = st2.timestamp1 := hts
    have hn2 : st2.contentLength = (n : Int) := hn
    have ea : st2.client.avail = st.client.avail + 1 := by rw [hst2]
    have ei : st2.client.input = st.client.input := by rw [hst2]
    have hav2 : (st2.client.avail : Int) < st2.contentLength := by
      rw [hn2, ea]
      exact_mod_cast (by omega : st.client.avail + 1 < n)
    have ht2 : st2.now - st2.timestamp1 ≤ 5000 := by
      rw [hts2]
      omega
    rw [run_G1_wait st2 rest hstk2 hav2 ht2]
    have hk2 : st2.client.avail + k < n := by omega
    have hlen2 : st2.client.avail + k ≤ st2.client.input.length := by
      rw [ea, ei]
      omega
    rw [ih st2 hstk2 hts2 hn2 hk2 hlen2, hst2]
    congr 1
    simp only [TS.mk.injEq, ClientState.mk.injEq, and_true, true_and, and_self]
    omega

/-- A complete well-formed 200 exchange, whole response delivered at once:
two polls drain the stack, the terminal status is 200, the body is exactly
the first `n` bytes after the blank line, and the transport was stopped
exactly once. -/
theorem drain200_allAtOnce (old resp r1 r2 r3 r4 r5 : List Char) (n : Nat)
    (h1 : dropThrough httpMark resp = some r1)
    (h2 : parseIntL r1 = (200, r2))
    (h3 : dropThrough clMark r2 = some r3)
    (h4 : parseIntL r3 = ((n : Int), r4))
    (h5 : dropThrough hdrEnd r4 = some r5)
    (h6 : n ≤ r5.length) :
    (pollSeq [(resp.length, 0), (0, 0)] (startRead old resp)).lastReadStatus = 200 ∧
    (pollSeq [(resp.length, 0), (0, 0)] (startRead old resp)).httpresponsetext = r5.take n ∧
    (pollSeq [(resp.length, 0), (0, 0)] (startRead old resp)).stack = [] ∧
    (pollSeq [(resp.length, 0), (0, 0)] (startRead old resp)).client.stops = 1 := by
  have hm : httpMark.length = 8 := rfl
  have hcm : clMark.length = 15 := rfl
  have hhm : hdrEnd.length = 4 := rfl
  have l1 := dropThrough_length h1
  have l2 := parseIntL_length r1
  rw [h2] at l2
  simp only at l2
  have l3 := dropThrough_length h3
  have l4 := parseIntL_length r3
  rw [h4] at l4
  simp only at l4
  have l5 := dropThrough_length h5
  have hL : 27 + r5.length ≤ resp.length := by omega
  rw [startRead_eq]
  have hstep1 : pollSeq [(resp.length, 0), (0, 0)] (startReadState old resp) =
      pollSeq [(0, 0)] (run (tick 0 (deliverBytes resp.length (startReadState old resp)))) := rfl
  rw [hstep1, tick_zero]
  rw [deliverBytes_eq resp.length (startReadState old resp)
    (show (0 : Nat) + resp.length ≤ resp.length by omega)]
  set st1 : TS := { startReadState old resp with
    client := { (startReadState old resp).client with
      avail := (startReadState old resp).client.avail + resp.length } } with hst1
  have hstk1 : st1.stack = Step.getHTTPResponse :: [Step.readRaw1] := rfl
  have hav1 : ¬ st1.client.avail < 17 := by
    show ¬ (0 : Nat) + resp.length < 17
    omega
  rw [run_G_success st1 [Step.readRaw1] r1 r2 r3 r4 r5 n hstk1 hav1 h1 h2 h3 h4 h5]
  set st2 : TS := { st1 with
    client := { st1.client with
      input := r5
      avail := st1.client.avail - (st1.client.input.length - r5.length) }
    lastReadStatus := 200
    contentLength := (n : Int)
    timestamp1 := st1.now
    stack := Step.getHTTPResponse1 :: [Step.readRaw1] } with hst2
  have hn2 : st2.contentLength = (n : Int) := rfl
  have hge2 : n ≤ st2.client.avail := by
    show n ≤ (0 : Nat) + resp.length - (resp.length - r5.length)
    omega
  rw [G1_read st2 n hn2 hge2]
  set st3 : TS := { st2 with
    client := { st2.client with
      input := st2.client.input.drop n
      avail := st2.client.avail - n }
    httpresponsetext := st2.client.input.take n
    stack := st2.stack.tail } with hst3
  have hstep2 : pollSeq [(0, 0)] st3 =
      pollSeq [] (run (tick 0 (deliverBytes 0 st3))) := rfl
  rw [hstep2, tick_zero]
  rw [deliverBytes_eq 0 st3
    (show ((0 : Nat) + resp.length - (resp.length - r5.length) - n) + 0 ≤
        (List.drop n r5).length from by
      simp only [List.length_drop]
      omega)]
  set st4 : TS := { st3 with
    client := { st3.client with avail := st3.client.avail + 0 } } with hst4
  have hstk4 : st4.stack = Step.readRaw1 :: [] := rfl
  have h200 : st4.lastReadStatus = 200 := rfl
  rw [run_RR1_200 st4 [] hstk4 h200]
  exact ⟨rfl, rfl, rfl, rfl⟩

/-- The same complete well-formed 200 exchange, delivered one byte per poll:
`resp.length + 2` polls suffice, and the terminal status, body and stop
count are identical to whole-block delivery. -/
theorem drain200_oneByte (old resp r1 r2 r3 r4 r5 : List Char) (n : Nat)
    (h1 : dropThrough httpMark resp = some r1)
    (h2 : parseIntL r1 = (200, r2))
    (h3 : dropThrough clMark r2 = some r3)
    (h4 : parseIntL r3 = ((n : Int), r4))
    (h5 : dropThrough hdrEnd r4 = some r5)
    (h6 : n ≤ r5.length) :
    (pollSeq (List.replicate (resp.length + 2) (1, 0)) (startRead old resp)).lastReadStatus = 200 ∧
    (pollSeq (List.replicate (resp.length + 2) (1, 0)) (startRead old resp)).httpresponsetext = r5.take n ∧
    (pollSeq (List.replicate (resp.length + 2) (1, 0)) (startRead old resp)).stack = [] ∧
    (pollSeq (List.replicate (resp.length + 2) (1, 0)) (startRead old resp)).client.stops = 1 := by
  have hm : httpMark.length = 8 := rfl
  have hcm : clMark.length = 15 := rfl
  have hhm : hdrEnd.length = 4 := rfl
  have l1 := dropThrough_length h1
  have l2 := parseIntL_length r1
  rw [h2] at l2
  simp only at l2
  have l3 := dropThrough_length h3
  have l4 := parseIntL_length r3
  rw [h4] at l4
  simp only at l4
  have l5 := dropThrough_length h5
  have hL : 27 + r5.length ≤ resp.length := by omega
  rw [startRead_eq]
  by_cases hn0 : n = 0
  · subst hn0
    rw [show List.replicate (resp.length + 2) ((1 : Nat), (0 : Nat)) =
        List.replicate 16 (1, 0) ++ List.replicate 1 (1, 0) ++
          List.replicate 1 (1, 0) ++ List.replicate (resp.length - 16) (1, 0) from by
      rw [← List.replicate_add, ← List.replicate_add, ← List.replicate_add]
      congr 1
      omega]
    rw [pollSeq_append, pollSeq_append, pollSeq_append]
    rw [pollSeq_ones_G 16 (startReadState old resp) [Step.readRaw1] rfl rfl
      (show (0 : Nat) + 16 < 17 by omega)
      (show (0 : Nat) + 16 ≤ resp.length by omega)]
    set st1 : TS := { startReadState old resp with
      client := { (startReadState old resp).client with
        avail := (startReadState old resp).client.avail + 16 } } with hst1
    have hb : pollSeq (List.replicate 1 ((1 : Nat), (0 : Nat))) st1 =
        run (tick 0 (deliverBytes 1 st1)) := rfl
    rw [hb, tick_zero]
    rw [deliverBytes_eq 1 st1 (show (0 : Nat) + 16 + 1 ≤ resp.length by omega)]
    set st2 : TS := { st1 with
      client := { st1.client with avail := st1.client.avail + 1 } } with hst2
    have hav2 : ¬ st2.client.avail < 17 := by
      show ¬ (0 : Nat) + 16 + 1 < 17
      omega
    rw [run_G_success st2 [Step.readRaw1] r1 r2 r3 r4 r5 0 rfl hav2 h1 h2 h3 h4 h5]
    set st3 : TS := { st2 with
      client := { st2.client with
        input := r5
        avail := st2.client.avail - (st2.client.input.length - r5.length) }
      lastReadStatus := 200
      contentLength := ((0 : Nat) : Int)
      timestamp1 := st2.now
      stack := Step.getHTTPResponse1 :: [Step.readRaw1] } with hst3
    rw [G1_read st3 0 rfl (Nat.zero_le _)]
    set st4 : TS := { st3 with
      client := { st3.client with
        input := st3.client.input.drop 0
        avail := st3.client.avail - 0 }
      httpresponsetext := st3.client.input.take 0
      stack := st3.stack.tail } with hst4
    have hc : pollSeq (List.replicate 1 ((1 : Nat), (0 : Nat))) st4 =
        run (tick 0 (deliverBytes 1 st4)) := rfl
    rw [hc, tick_zero]
    rw [run_RR1_200 (deliverBytes 1 st4) [] rfl rfl]
    obtain ⟨o1, o2, o3, o4⟩ := pollSeq_nil_obs
      (List.replicate (resp.length - 16) ((1 : Nat), (0 : Nat)))
      { deliverBytes 1 st4 with
        client := clientStop (drainAvail (deliverBytes 1 st4).client)
        stack := [] } rfl
    rw [o1, o2, o3, o4]
    exact ⟨rfl, rfl, rfl, rfl⟩
  · rw [show List.replicate (resp.length + 2) ((1 : Nat), (0 : Nat)) =
        List.replicate 16 (1, 0) ++ List.replicate 1 (1, 0) ++
          List.replicate (n - 1) (1, 0) ++ List.replicate 1 (1, 0) ++
          List.replicate 1 (1, 0) ++ List.replicate (resp.length - 16 - n) (1, 0) from by
      rw [← List.replicate_add, ← List.replicate_add, ← List.replicate_add,
        ← List.replicate_add, ← List.replicate_add]
      congr 1
      omega]
    rw [pollSeq_append, pollSeq_append, pollSeq_append, pollSeq_append, pollSeq_append]
    rw [pollSeq_ones_G 16 (startReadState old resp) [Step.readRaw1] rfl rfl
      (show (0 : Nat) + 16 < 17 by omega)
      (show (0 : Nat) + 16 ≤ resp.length by omega)]
    set st1 : TS := { startReadState old resp with
      client := { (startReadState old resp).client with
        avail := (startReadState old resp).client.avail + 16 } } with hst1
    have hb : pollSeq (List.replicate 1 ((1 : Nat), (0 : Nat))) st1 =
        run (tick 0 (deliverBytes 1 st1)) := rfl
    rw [hb, tick_zero]
    rw [deliverBytes_eq 1 st1 (show (0 : Nat) + 16 + 1 ≤ resp.length by omega)]
    set st2 : TS := { st1 with
      client := { st1.client with avail := st1.client.avail + 1 } } with hst2
    have hav2 : ¬ st2.client.avail < 17 := by
      show ¬ (0 : Nat) + 16 + 1 < 17
      omega
    rw [run_G_success st2 [Step.readRaw1] r1 r2 r3 r4 r5 n rfl hav2 h1 h2 h3 h4 h5]
    set st3 : TS := { st2 with
      client := { st2.client with
        input := r5
        avail := st2.client.avail - (st2.client.input.length - r5.length) }
      lastReadStatus := 200
      contentLength := (n : Int)
      timestamp1 := st2.now
      stack := Step.getHTTPResponse1 :: [Step.readRaw1] } with hst3
    have hlt3 : (st3.client.avail : Int) < st3.contentLength := by
      show (((0 : Nat) + 16 + 1 - (resp.length - r5.length) : Nat) : Int) < (n : Int)
      exact_mod_cast (show (0 : Nat) + 16 + 1 - (resp.length - r5.length) < n by omega)
    rw [G1_wait st3 hlt3 (show (0 : Nat) - 0 ≤ 5000 by omega)]
    rw [pollSeq_ones_G1 (n - 1) st3 [Step.readRaw1] n rfl rfl rfl
      (show (0 : Nat) + 16 + 1 - (resp.length - r5.length) + (n - 1) < n by omega)
      (show (0 : Nat) + 16 + 1 - (resp.length - r5.length) + (n - 1) ≤ r5.length by omega)]
    set st4 : TS := { st3 with
      client := { st3.client with avail := st3.client.avail + (n - 1) } } with hst4
    have hd : pollSeq (List.replicate 1 ((1 : Nat), (0 : Nat))) st4 =
        run (tick 0 (deliverBytes 1 st4)) := rfl
    rw [hd, tick_zero]
    rw [deliverBytes_eq 1 st4
      (show (0 : Nat) + 16 + 1 - (resp.length - r5.length) + (n - 1) + 1 ≤ r5.length by omega)]
    set st5 : TS := { st4 with
      client := { st4.client with avail := st4.client.avail + 1 } } with hst5
    have hge5 : n ≤ st5.client.avail := by
      show n ≤ (0 : Nat) + 16 + 1 - (resp.length - r5.length) + (n - 1) + 1
      omega
    rw [run_G1_read st5 [Step.readRaw1] n rfl rfl hge5]
    set st6 : TS := { st5 with
      client := { st5.client with
        input := st5.client.input.drop n
        avail := st5.client.avail - n }
      httpresponsetext := st5.client.input.take n
      stack := [Step.readRaw1] } with hst6
    have he : pollSeq (List.replicate 1 ((1 : Nat), (0 : Nat))) st6 =
        run (tick 0 (deliverBytes 1 st6)) := rfl
    rw [he, tick_zero]
    rw [run_RR1_200 (deliverBytes 1 st6) [] rfl rfl]
    obtain ⟨o1, o2, o3, o4⟩ := pollSeq_nil_obs
      (List.replicate (resp.length - 16 - n) ((1 : Nat), (0 : Nat)))
      { deliverBytes 1 st6 with
        client := clientStop (drainAvail (deliverBytes 1 st6).client)
        stack := [] } rfl
    rw [o1, o2, o3, o4]
    exact ⟨rfl, rfl, rfl, rfl⟩

/-- A complete exchange whose status line parses to `v ≠ 200`: the decoder
pops after recording `v` verbatim, `readRaw_1` clears the buffer and stops
the transport, and `contentLength` is never parsed (stays at its initial 0)
— regardless of what the response buffer held before. -/
theorem drainNon200_allAtOnce (old resp r1 r2 : List Char) (v : Int)
    (h1 : dropThrough httpMark resp = some r1)
    (h2 : parseIntL r1 = (v, r2))
    (hv : v ≠ 200)
    (hL : 17 ≤ resp.length) :
    (pollSeq [(resp.length, 0), (0, 0)] (startRead old resp)).lastReadStatus = v ∧
    (pollSeq [(resp.length, 0), (0, 0)] (startRead old resp)).httpresponsetext = [] ∧
    (pollSeq [(resp.length, 0), (0, 0)] (startRead old resp)).stack = [] ∧
    (pollSeq [(resp.length, 0), (0, 0)] (startRead old resp)).contentLength = 0 ∧
    (pollSeq [(resp.length, 0), (0, 0)] (startRead old resp)).client.stops = 1 := by
  have l1 := dropThrough_length h1
  have l2 := parseIntL_length r1
  rw [h2] at l2
  simp only at l2
  rw [startRead_eq]
  have hstep1 : pollSeq [(resp.length, 0), (0, 0)] (startReadState old resp) =
      pollSeq [(0, 0)] (run (tick 0 (deliverBytes resp.length (startReadState old resp)))) := rfl
  rw [hstep1, tick_zero]
  rw [deliverBytes_eq resp.length (startReadState old resp)
    (show (0 : Nat) + resp.length ≤ resp.length by omega)]
  set st1 : TS := { startReadState old resp with
    client := { (startReadState old resp).client with
      avail := (startReadState old resp).client.avail + resp.length } } with hst1
  have hav1 : ¬ st1.client.avail < 17 := by
    show ¬ (0 : Nat) + resp.length < 17
    omega
  rw [run_G_non200 st1 [Step.readRaw1] r1 r2 v rfl hav1 h1 h2 hv]
  set st2 : TS := { st1 with
    client := { st1.client with
      input := r2
      avail := st1.client.avail - (st1.client.input.length - r2.length) }
    lastReadStatus := v
    stack := [Step.readRaw1] } with hst2
  have hstep2 : pollSeq [((0 : Nat), (0 : Nat))] st2 =
      run (tick 0 (deliverBytes 0 st2)) := rfl
  rw [hstep2, tick_zero]
  rw [run_RR1_non200 (deliverBytes 0 st2) [] rfl hv]
  exact ⟨rfl, rfl, rfl, rfl, rfl⟩

/-- C1: for a response whose status line carries `HTTP/1.1 200`, that
declares `Content-Length` `n` and whose header block is terminated by the
blank line, the decoded body handed to `httpresponsetext` is exactly the
`n` bytes following the blank-line terminator — and one-byte-per-poll
delivery and whole-block delivery produce identical terminal status and
body. -/
theorem body_delivery_schedule_independent
    (resp r1 r2 r3 r4 r5 : List Char) (n : Nat)
    (h1 : dropThrough httpMark resp = some r1)
    (h2 : parseIntL r1 = (200, r2))
    (h3 : dropThrough clMark r2 = some r3)
    (h4 : parseIntL r3 = ((n : Int), r4))
    (h5 : dropThrough hdrEnd r4 = some r5)
    (h6 : n ≤ r5.length) :
    (pollSeq [(resp.length, 0), (0, 0)] (startRead [] resp)).lastReadStatus = 200 ∧
    (pollSeq [(resp.length, 0), (0, 0)] (startRead [] resp)).httpresponsetext = r5.take n ∧
    (pollSeq (List.replicate (resp.length + 2) (1, 0)) (startRead [] resp)).lastReadStatus =
      (pollSeq [(resp.length, 0), (0, 0)] (startRead [] resp)).lastReadStatus ∧
    (pollSeq (List.replicate (resp.length + 2) (1, 0)) (startRead [] resp)).httpresponsetext =
      (pollSeq [(resp.length, 0), (0, 0)] (startRead [] resp)).httpresponsetext ∧
    (pollSeq [(resp.length, 0), (0, 0)] (startRead [] resp)).stack = [] ∧
    (pollSeq (List.replicate (resp.length + 2) (1, 0)) (startRead [] resp)).stack = [] := by
  obtain ⟨a1, a2, a3, a4⟩ := drain200_allAtOnce [] resp r1 r2 r3 r4 r5 n h1 h2 h3 h4 h5 h6
  obtain ⟨b1, b2, b3, b4⟩ := drain200_oneByte [] resp r1 r2 r3 r4 r5 n h1 h2 h3 h4 h5 h6
  exact ⟨a1, a2, by rw [a1, b1], by rw [a2, b2], a3, b3⟩

theorem body_delivery_schedule_independent_witness :
    (dropThrough httpMark sampleResp =
        some ( " 200 OK\r\nContent-Length: 4\r\n\r\n12.5".data) ∧
      parseIntL ( " 200 OK\r\nContent-Length: 4\r\n\r\n12.5".data) =
        (200, ( " OK\r\nContent-Length: 4\r\n\r\n12.5".data)) ∧
      (4 : Nat) ≤ ( "12.5".data).length) ∧
    (pollSeq [(sampleResp.length, 0), (0, 0)] (startRead [] sampleResp)).lastReadStatus = 200 ∧
    (pollSeq [(sampleResp.length, 0), (0, 0)] (startRead [] sampleResp)).httpresponsetext =
      ( "12.5".data).take 4 ∧
    (pollSeq (List.replicate (sampleResp.length + 2) (1, 0)) (startRead [] sampleResp)).lastReadStatus =
      (pollSeq [(sampleResp.length, 0), (0, 0)] (startRead [] sampleResp)).lastReadStatus ∧
    (pollSeq (List.replicate (sampleResp.length + 2) (1, 0)) (startRead [] sampleResp)).httpresponsetext =
      (pollSeq [(sampleResp.length, 0), (0, 0)] (startRead [] sampleResp)).httpresponsetext ∧
    (pollSeq [(sampleResp.length, 0), (0, 0)] (startRead [] sampleResp)).stack = [] ∧
    (pollSeq (List.replicate (sampleResp.length + 2) (1, 0)) (startRead [] sampleResp)).stack = [] := by
  refine ⟨⟨by decide, by decide, by decide⟩, ?_⟩
  exact body_delivery_schedule_independent sampleResp
    ( " 200 OK\r\nContent-Length: 4\r\n\r\n12.5".data)
    ( " OK\r\nContent-Length: 4\r\n\r\n12.5".data)
    ( " 4\r\n\r\n12.5".data)
    ( "\r\n\r\n12.5".data)
    ( "12.5".data) 4
    (by decide) (by decide) (by decide) (by decide) (by decide) (by decide)

theorem G_wait (st : TS) (ha : st.client.avail < 17)
    (ht : st.now - st.timestamp1 ≤ 5000) : getHTTPResponse st = st := by
  unfold getHTTPResponse
  rw [if_pos ha, if_neg (by omega)]

theorem G1_timestamp (st : TS) :
    (getHTTPResponse_1 st).timestamp1 = st.timestamp1 := by
  unfold getHTTPResponse_1
  split
  · split <;> rfl
  · rfl

/-- C5: for a response whose status line parses to `v ≠ 200`, the decoder
skips the `Content-Length` parse, the header terminator and the body
(`contentLength` keeps its initial value 0), the terminal `lastReadStatus`
is the literal parsed code `v`, and `httpresponsetext` is empty once the
stack has drained. -/
theorem non200_skips_body_and_clears_buffer (resp r1 r2 : List Char) (v : Int)
    (h1 : dropThrough httpMark resp = some r1)
    (h2 : parseIntL r1 = (v, r2))
    (hv : v ≠ 200)
    (hL : 17 ≤ resp.length) :
    (pollSeq [(resp.length, 0), (0, 0)] (startRead [] resp)).lastReadStatus = v ∧
    (pollSeq [(resp.length, 0), (0, 0)] (startRead [] resp)).httpresponsetext = [] ∧
    (pollSeq [(resp.length, 0), (0, 0)] (startRead [] resp)).contentLength = 0 ∧
    (pollSeq [(resp.length, 0), (0, 0)] (startRead [] resp)).stack = [] :=
  let h := drainNon200_allAtOnce [] resp r1 r2 v h1 h2 hv hL
  ⟨h.1, h.2.1, h.2.2.2.1, h.2.2.1⟩

theorem non200_skips_body_and_clears_buffer_witness :
    (dropThrough httpMark resp404 =
        some ( " 404 Not Found\r\nContent-Length: 9\r\n\r\nnot found".data) ∧
      parseIntL ( " 404 Not Found\r\nContent-Length: 9\r\n\r\nnot found".data) =
        (404, ( " Not Found\r\nContent-Length: 9\r\n\r\nnot found".data)) ∧
      (404 : Int) ≠ 200 ∧ 17 ≤ resp404.length) ∧
    (pollSeq [(resp404.length, 0), (0, 0)] (startRead [] resp404)).lastReadStatus = 404 ∧
    (pollSeq [(resp404.length, 0), (0, 0)] (startRead [] resp404)).httpresponsetext = [] ∧
    (pollSeq [(resp404.length, 0), (0, 0)] (startRead [] resp404)).contentLength = 0 ∧
    (pollSeq [(resp404.length, 0), (0, 0)] (startRead [] resp404)).stack = [] := by
  refine ⟨⟨by decide, by decide, by decide, by decide⟩, ?_⟩
  exact non200_skips_body_and_clears_buffer resp404
    ( " 404 Not Found\r\nContent-Length: 9\r\n\r\nnot found".data)
    ( " Not Found\r\nContent-Length: 9\r\n\r\nnot found".data)
    404 (by decide) (by decide) (by decide) (by decide)

/-- C7 (counterexample): `readRaw` does NOT clear `httpresponsetext` before
it begins awaiting the response — right after a successful `readRaw` issue
the stack is non-empty (awaiting) and the buffer still holds the previous
response. -/
theorem readRaw_keeps_stale_buffer_while_awaiting :
    (startRead ( "OLD".data) []).stack ≠ [] ∧
    (startRead ( "OLD".data) []).httpresponsetext = ( "OLD".data) := by
  decide

/-- C7 (amended): the write path clears the response buffer before awaiting
(`finishWrite` sets it empty and the await step leaves it empty while
waiting); `readRaw` does not clear the buffer at request start, but no
previous bytes can be observed as the current response: once the stack
drains the buffer holds the freshly decoded body on a 200 response and is
empty on every other terminal status — a literal non-200 code, a timeout
(-304) at either awaiting state, or a bad response (-303) at any of the
three parse-failure sites — whatever the buffer held before. -/
theorem buffer_cleared_for_writes_only :
    (∀ st : TS, st.client.avail < 17 →
        (finishWrite st).httpresponsetext = [] ∧
        (finishWrite st).stack =
          Step.getHTTPResponse :: Step.finishWrite1 :: st.stack) ∧
    (∀ (old resp r1 r2 : List Char) (v : Int),
        dropThrough httpMark resp = some r1 → parseIntL r1 = (v, r2) →
        v ≠ 200 → 17 ≤ resp.length →
        (pollSeq [(resp.length, 0), (0, 0)] (startRead old resp)).httpresponsetext = []) ∧
    (∀ (old resp r1 r2 r3 r4 r5 : List Char) (n : Nat),
        dropThrough httpMark resp = some r1 → parseIntL r1 = (200, r2) →
        dropThrough clMark r2 = some r3 → parseIntL r3 = ((n : Int), r4) →
        dropThrough hdrEnd r4 = some r5 → n ≤ r5.length →
        (pollSeq [(resp.length, 0), (0, 0)] (startRead old resp)).httpresponsetext =
          r5.take n) ∧
    (∀ st : TS, st.stack = [Step.getHTTPResponse, Step.readRaw1] →
        st.client.avail < 17 → 5000 < st.now - st.timestamp1 →
        (run (run st)).httpresponsetext = [] ∧
        (run (run st)).lastReadStatus = -304 ∧
        (run (run st)).stack = []) ∧
    (∀ (st : TS) (n : Nat), st.stack = [Step.getHTTPResponse1, Step.readRaw1] →
        st.contentLength = (n : Int) → st.client.avail < n →
        5000 < st.now - st.timestamp1 →
        (run (run st)).httpresponsetext = [] ∧
        (run (run st)).lastReadStatus = -304 ∧
        (run (run st)).stack = []) ∧
    (∀ st : TS, st.stack = [Step.getHTTPResponse, Step.readRaw1] →
        ¬ st.client.avail < 17 →
        dropThrough httpMark st.client.input = none →
        (run (run st)).httpresponsetext = [] ∧
        (run (run st)).lastReadStatus = -303 ∧
        (run (run st)).stack = []) ∧
    (∀ (st : TS) (r1 r2 : List Char),
        st.stack = [Step.getHTTPResponse, Step.readRaw1] →
        ¬ st.client.avail < 17 →
        dropThrough httpMark st.client.input = some r1 →
        parseIntL r1 = (200, r2) → dropThrough clMark r2 = none →
        (run (run st)).httpresponsetext = [] ∧
        (run (run st)).lastReadStatus = -303 ∧
        (run (run st)).stack = []) ∧
    (∀ (st : TS) (r1 r2 r3 r4 : List Char) (len : Int),
        st.stack = [Step.getHTTPResponse, Step.readRaw1] →
        ¬ st.client.avail < 17 →
        dropThrough httpMark st.client.input = some r1 →
        parseIntL r1 = (200, r2) → dropThrough clMark r2 = some r3 →
        parseIntL r3 = (len, r4) → dropThrough hdrEnd r4 = none →
        (run (run st)).httpresponsetext = [] ∧
        (run (run st)).lastReadStatus = -303 ∧
        (run (run st)).stack = []) := by
  refine ⟨?_, ?_, ?_, ?_, ?_, ?_, ?_, ?_⟩
  · intro st h
    unfold finishWrite
    have hg := G_wait
      { st with
        httpresponsetext := []
        stack := Step.getHTTPResponse :: Step.finishWrite1 :: st.stack
        timestamp1 := st.now } h (by simp)
    rw [hg]
    exact ⟨rfl, rfl⟩
  · intro old resp r1 r2 v h1 h2 hv hL
    exact (drainNon200_allAtOnce old resp r1 r2 v h1 h2 hv hL).2.1
  · intro old resp r1 r2 r3 r4 r5 n h1 h2 h3 h4 h5 h6
    exact (drain200_allAtOnce old resp r1 r2 r3 r4 r5 n h1 h2 h3 h4 h5 h6).2.1
  · intro st hstk ha ht
    have hr1 : run st = { st with lastReadStatus := -304, stack := [Step.readRaw1] } := by
      have hg : run st = getHTTPResponse st := by simp [run, hstk]
      rw [hg]
      unfold getHTTPResponse
      rw [if_pos ha, if_pos ht, hstk]
      rfl
    rw [hr1]
    rw [run_RR1_non200 { st with lastReadStatus := -304, stack := [Step.readRaw1] }
      [] rfl (by norm_num)]
    exact ⟨rfl, rfl, rfl⟩
  · intro st n hstk hn ha ht
    have hlt : (st.client.avail : Int) < st.contentLength := by
      rw [hn]
      exact_mod_cast ha
    have hr1 : run st = { st with lastReadStatus := -304, stack := [Step.readRaw1] } := by
      have hg : run st = getHTTPResponse_1 st := by simp [run, hstk]
      rw [hg]
      unfold getHTTPResponse_1
      rw [if_pos hlt, if_pos ht, hstk]
      rfl
    rw [hr1]
    rw [run_RR1_non200 { st with lastReadStatus := -304, stack := [Step.readRaw1] }
      [] rfl (by norm_num)]
    exact ⟨rfl, rfl, rfl⟩
  · intro st hstk hav h1
    rw [run_G_fail_mark st [Step.readRaw1] hstk hav h1]
    rw [run_RR1_non200
      { st with
        client := { st.client with input := [], avail := 0 }
        lastReadStatus := -303
        stack := [Step.readRaw1] } [] rfl (by norm_num)]
    exact ⟨rfl, rfl, rfl⟩
  · intro st r1 r2 hstk hav h1 h2 h3
    rw [run_G_fail_cl st [Step.readRaw1] r1 r2 hstk hav h1 h2 h3]
    rw [run_RR1_non200
      { st with
        client := { st.client with input := [], avail := 0 }
        lastReadStatus := -303
        stack := [Step.readRaw1] } [] rfl (by norm_num)]
    exact ⟨rfl, rfl, rfl⟩
  · intro st r1 r2 r3 r4 len hstk hav h1 h2 h3 h4 h5
    rw [run_G_fail_end st [Step.readRaw1] r1 r2 r3 r4 len hstk hav h1 h2 h3 h4 h5]
    rw [run_RR1_non200
      { st with
        client := { st.client with input := [], avail := 0 }
        lastReadStatus := -303
        contentLength := len
        stack := [Step.readRaw1] } [] rfl (by norm_num)]
    exact ⟨rfl, rfl, rfl⟩

theorem buffer_cleared_for_writes_only_witness :
    ((initTS []).client.avail < 17 ∧
      (finishWrite (initTS [])).httpresponsetext = [] ∧
      (finishWrite (initTS [])).stack =
        [Step.getHTTPResponse, Step.finishWrite1]) ∧
    (pollSeq [(resp404.length, 0), (0, 0)]
        (startRead ( "STALE".data) resp404)).httpresponsetext = [] ∧
    (pollSeq [(sampleResp.length, 0), (0, 0)]
        (startRead ( "STALE".data) sampleResp)).httpresponsetext =
      ( "12.5".data).take 4 ∧
    ((run (run { initTS [] with
        httpresponsetext := ( "STALE".data)
        stack := [Step.getHTTPResponse, Step.readRaw1]
        now := 6000 })).httpresponsetext = [] ∧
      (run (run { initTS [] with
        httpresponsetext := ( "STALE".data)
        stack := [Step.getHTTPResponse, Step.readRaw1]
        now := 6000 })).lastReadStatus = -304) ∧
    ((run (run { initTS [] with
        httpresponsetext := ( "STALE".data)
        stack := [Step.getHTTPResponse1, Step.readRaw1]
        contentLength := 4
        now := 6000 })).httpresponsetext = [] ∧
      (run (run { initTS [] with
        httpresponsetext := ( "STALE".data)
        stack := [Step.getHTTPResponse1, Step.readRaw1]
        contentLength := 4
        now := 6000 })).lastReadStatus = -304) ∧
    ((run (run { initTS respNoMark with
        client := { input := respNoMark, avail := 17 }
        httpresponsetext := ( "STALE".data)
        stack := [Step.getHTTPResponse, Step.readRaw1] })).httpresponsetext = [] ∧
      (run (run { initTS respNoMark with
        client := { input := respNoMark, avail := 17 }
        httpresponsetext := ( "STALE".data)
        stack := [Step.getHTTPResponse, Step.readRaw1] })).lastReadStatus = -303) ∧
    ((run (run { initTS respNoCL with
        client := { input := respNoCL, avail := 19 }
        httpresponsetext := ( "STALE".data)
        stack := [Step.getHTTPResponse, Step.readRaw1] })).httpresponsetext = [] ∧
      (run (run { initTS respNoCL with
        client := { input := respNoCL, avail := 19 }
        httpresponsetext := ( "STALE".data)
        stack := [Step.getHTTPResponse, Step.readRaw1] })).lastReadStatus = -303) ∧
    ((run (run { initTS respNoEnd with
        client := { input := respNoEnd, avail := 34 }
        httpresponsetext := ( "STALE".data)
        stack := [Step.getHTTPResponse, Step.readRaw1] })).httpresponsetext = [] ∧
      (run (run { initTS respNoEnd with
        client := { input := respNoEnd, avail := 34 }
        httpresponsetext := ( "STALE".data)
        stack := [Step.getHTTPResponse, Step.readRaw1] })).lastReadStatus = -303) := by
  refine ⟨⟨by decide, ?_⟩, ?_, ?_, ?_, ?_, ?_, ?_, ?_⟩
  · exact (buffer_cleared_for_writes_only.1 (initTS []) (by decide))
  · exact buffer_cleared_for_writes_only.2.1 ( "STALE".data) resp404
      ( " 404 Not Found\r\nContent-Length: 9\r\n\r\nnot found".data)
      ( " Not Found\r\nContent-Length: 9\r\n\r\nnot found".data)
      404 (by decide) (by decide) (by decide) (by decide)
  · exact buffer_cleared_for_writes_only.2.2.1 ( "STALE".data) sampleResp
      ( " 200 OK\r\nContent-Length: 4\r\n\r\n12.5".data)
      ( " OK\r\nContent-Length: 4\r\n\r\n12.5".data)
      ( " 4\r\n\r\n12.5".data)
      ( "\r\n\r\n12.5".data)
      ( "12.5".data) 4
      (by decide) (by decide) (by decide) (by decide) (by decide) (by decide)
  · have h := buffer_cleared_for_writes_only.2.2.2.1
      { initTS [] with
        httpresponsetext := ( "STALE".data)
        stack := [Step.getHTTPResponse, Step.readRaw1]
        now := 6000 } rfl (by decide) (by decide)
    exact ⟨h.1, h.2.1⟩
  · have h := buffer_cleared_for_writes_only.2.2.2.2.1
      { initTS [] with
        httpresponsetext := ( "STALE".data)
        stack := [Step.getHTTPResponse1, Step.readRaw1]
        contentLength := 4
        now := 6000 } 4 rfl rfl (by decide) (by decide)
    exact ⟨h.1, h.2.1⟩
  · have h := buffer_cleared_for_writes_only.2.2.2.2.2.1
      { initTS respNoMark with
        client := { input := respNoMark, avail := 17 }
        httpresponsetext := ( "STALE".data)
        stack := [Step.getHTTPResponse, Step.readRaw1] } rfl (by decide) (by decide)
    exact ⟨h.1, h.2.1⟩
  · have h := buffer_cleared_for_writes_only.2.2.2.2.2.2.1
      { initTS respNoCL with
        client := { input := respNoCL, avail := 19 }
        httpresponsetext := ( "STALE".data)
        stack := [Step.getHTTPResponse, Step.readRaw1] }
      ( " 200 OK\r\n\r\n".data) ( " OK\r\n\r\n".data)
      rfl (by decide) (by decide) (by decide) (by decide)
    exact ⟨h.1, h.2.1⟩
  · have h := buffer_cleared_for_writes_only.2.2.2.2.2.2.2
      { initTS respNoEnd with
        client := { input := respNoEnd, avail := 34 }
        httpresponsetext := ( "STALE".data)
        stack := [Step.getHTTPResponse, Step.readRaw1] }
      ( " 200 OK\r\nContent-Length: 4".data)
      ( " OK\r\nContent-Length: 4".data)
      ( " 4".data) [] 4
      rfl (by decide) (by decide) (by decide) (by decide) (by decide) (by decide)
    exact ⟨h.1, h.2.1⟩

/-- C4: while awaiting either the status line/headers or the body, if fewer
than the required bytes are available and more than 5000 ms have elapsed
since the deadline was armed, the terminal `lastReadStatus` is the Timeout
code -304 and `client->stop()` runs exactly once before the stack drains. -/
theorem awaiting_timeout_closes_once :
    (∀ st : TS, st.stack = [Step.getHTTPResponse, Step.readRaw1] →
        st.client.avail < 17 → 5000 < st.now - st.timestamp1 →
        (run (run st)).lastReadStatus = -304 ∧
        (run (run st)).stack = [] ∧
        (run (run st)).client.stops = st.client.stops + 1) ∧
    (∀ (st : TS) (n : Nat), st.stack = [Step.getHTTPResponse1, Step.readRaw1] →
        st.contentLength = (n : Int) → st.client.avail < n →
        5000 < st.now - st.timestamp1 →
        (run (run st)).lastReadStatus = -304 ∧
        (run (run st)).stack = [] ∧
        (run (run st)).client.stops = st.client.stops + 1) := by
  constructor
  · intro st hstk ha ht
    have hr1 : run st = { st with lastReadStatus := -304, stack := [Step.readRaw1] } := by
      have hg : run st = getHTTPResponse st := by simp [run, hstk]
      rw [hg]
      unfold getHTTPResponse
      rw [if_pos ha, if_pos ht, hstk]
      rfl
    rw [hr1]
    rw [run_RR1_non200 { st with lastReadStatus := -304, stack := [Step.readRaw1] }
      [] rfl (by norm_num)]
    exact ⟨rfl, rfl, rfl⟩
  · intro st n hstk hn ha ht
    have hlt : (st.client.avail : Int) < st.contentLength := by
      rw [hn]
      exact_mod_cast ha
    have hr1 : run st = { st with lastReadStatus := -304, stack := [Step.readRaw1] } := by
      have hg : run st = getHTTPResponse_1 st := by simp [run, hstk]
      rw [hg]
      unfold getHTTPResponse_1
      rw [if_pos hlt, if_pos ht, hstk]
      rfl
    rw [hr1]
    rw [run_RR1_non200 { st with lastReadStatus := -304, stack := [Step.readRaw1] }
      [] rfl (by norm_num)]
    exact ⟨rfl, rfl, rfl⟩

theorem awaiting_timeout_closes_once_witness :
    (({ initTS [] with stack := [Step.getHTTPResponse, Step.readRaw1], now := 6000 } : TS).client.avail < 17 ∧
      5000 < ({ initTS [] with stack := [Step.getHTTPResponse, Step.readRaw1], now := 6000 } : TS).now -
        ({ initTS [] with stack := [Step.getHTTPResponse, Step.readRaw1], now := 6000 } : TS).timestamp1 ∧
      (run (run { initTS [] with stack := [Step.getHTTPResponse, Step.readRaw1], now := 6000 })).lastReadStatus = -304 ∧
      (run (run { initTS [] with stack := [Step.getHTTPResponse, Step.readRaw1], now := 6000 })).stack = [] ∧
      (run (run { initTS [] with stack := [Step.getHTTPResponse, Step.readRaw1], now := 6000 })).client.stops =
        ({ initTS [] with stack := [Step.getHTTPResponse, Step.readRaw1], now := 6000 } : TS).client.stops + 1) ∧
    (({ initTS [] with stack := [Step.getHTTPResponse1, Step.readRaw1], contentLength := 4, now := 6000 } : TS).client.avail < 4 ∧
      (run (run { initTS [] with stack := [Step.getHTTPResponse1, Step.readRaw1], contentLength := 4, now := 6000 })).lastReadStatus = -304 ∧
      (run (run { initTS [] with stack := [Step.getHTTPResponse1, Step.readRaw1], contentLength := 4, now := 6000 })).stack = [] ∧
      (run (run { initTS [] with stack := [Step.getHTTPResponse1, Step.readRaw1], contentLength := 4, now := 6000 })).client.stops =
        ({ initTS [] with stack := [Step.getHTTPResponse1, Step.readRaw1], contentLength := 4, now := 6000 } : TS).client.stops + 1) := by
  constructor
  · refine ⟨by decide, by decide, ?_⟩
    exact awaiting_timeout_closes_once.1
      { initTS [] with stack := [Step.getHTTPResponse, Step.readRaw1], now := 6000 }
      rfl (by decide) (by decide)
  · refine ⟨by decide, ?_⟩
    exact awaiting_timeout_closes_once.2
      { initTS [] with stack := [Step.getHTTPResponse1, Step.readRaw1], contentLength := 4, now := 6000 }
      4 rfl rfl (by decide) (by decide)

/-- C9: whenever the blank-line header terminator is found, the timeout
deadline is re-armed — `timestamp1` is set to the current clock value before
the body-await step runs, however stale the previous deadline was. -/
theorem deadline_rearmed_at_header_end (st : TS) (rest : List Step)
    (r1 r2 r3 r4 r5 : List Char) (n : Nat)
    (hstk : st.stack = Step.getHTTPResponse :: rest)
    (hav : ¬ st.client.avail < 17)
    (h1 : dropThrough httpMark st.client.input = some r1)
    (h2 : parseIntL r1 = (200, r2))
    (h3 : dropThrough clMark r2 = some r3)
    (h4 : parseIntL r3 = ((n : Int), r4))
    (h5 : dropThrough hdrEnd r4 = some r5) :
    (run st).timestamp1 = st.now := by
  rw [run_G_success st rest r1 r2 r3 r4 r5 n hstk hav h1 h2 h3 h4 h5]
  rw [G1_timestamp]

theorem deadline_rearmed_at_header_end_witness :
    (¬ ({ initTS sampleResp with
        client := { input := sampleResp, avail := 43 }
        stack := [Step.getHTTPResponse, Step.readRaw1]
        now := 4000 } : TS).client.avail < 17) ∧
    (run { initTS sampleResp with
        client := { input := sampleResp, avail := 43 }
        stack := [Step.getHTTPResponse, Step.readRaw1]
        now := 4000 }).timestamp1 = 4000 := by
  refine ⟨by decide, ?_⟩
  exact deadline_rearmed_at_header_end
    { initTS sampleResp with
      client := { input := sampleResp, avail := 43 }
      stack := [Step.getHTTPResponse, Step.readRaw1]
      now := 4000 }
    [Step.readRaw1]
    ( " 200 OK\r\nContent-Length: 4\r\n\r\n12.5".data)
    ( " OK\r\nContent-Length: 4\r\n\r\n12.5".data)
    ( " 4\r\n\r\n12.5".data)
    ( "\r\n\r\n12.5".data)
    ( "12.5".data) 4
    rfl (by decide) (by decide) (by decide) (by decide) (by decide) (by decide)

end ThingSpeakNB
